import Mathlib

/-!
# Linear six-node relay device (`SimpleNetDevice`)

A shallow embedding of `src/utils/simple-net-device.cc`: the relay / network-coding
decision engine and the slot-aligned transmit path of one device.

Conventions of the embedding.

* `Ptr<Packet>` is a nullable address into a packet heap: `none` is the null pointer,
  `some a` addresses cell `a` of `State.heap`.  Packets are mutable shared objects, so
  header and tag operations update the heap cell and every alias sees the change.
* Every function that can dereference a pointer returns an `Option`; `none` stands for
  behaviour the program does not define (null or dangling dereference, reading a header
  from a packet that carries none).
* `Simulator::Schedule*` appends an `Event` to `State.scheduled`; `ScheduleNow` is the
  delay `0`.  `m_channel->Send` appends a `ChannelTx` to `State.channelSent`.
* `Simulator::Now().GetSeconds()` converted to `int` is the explicit argument `now : Int`;
  the C++ operator `%` on `int` is `Int.tmod`.
* The C++ parameter names `to` and `from` are written `toAddr` and `fromAddr`.
* `LwsnHeader` is declared outside the translated sources: the values of a
  default-constructed header and its serialized size are taken as parameters (`Config`).
-/

namespace LinearNode

/-- The three message types `LwsnHeader::ORIGINAL_TRANSMISSION`, `LwsnHeader::FORWARDING`
and `LwsnHeader::NETWORK_CODING` tested by `Receive`. -/
inductive MsgType where
  | ORIGINAL_TRANSMISSION
  | FORWARDING
  | NETWORK_CODING
deriving DecidableEq, Repr

/-- Fields of `LwsnHeader` reached through `Get/SetType`, `Get/SetOsid`, `Get/SetOsid2`,
`SetPsid`, `SetR` and `SetE`. -/
structure LwsnHeader where
  type : MsgType
  osid : Nat
  osid2 : Nat
  psid : Nat
  r : Int
  e : Nat
deriving DecidableEq, Repr

/-- What the translated sources use of `LwsnHeader` without defining it: the field values
of a default-constructed header and the serialized size of a header. -/
structure Config where
  defaultHeader : LwsnHeader
  headerSize : Nat
deriving DecidableEq, Repr

/-- `SimpleTag`: source, destination and protocol of a packet (lines 41-93). -/
structure SimpleTag where
  m_src : Nat
  m_dst : Nat
  m_protocolNumber : Nat
deriving DecidableEq, Repr

/-- A packet object: the stack of `LwsnHeader`s in front of the payload (outermost first),
the payload size in bytes and the packet tag list (most recently added first). -/
structure Packet where
  headers : List LwsnHeader
  payload : Nat
  tags : List SimpleTag
deriving DecidableEq, Repr

/-- `Ptr<Packet>`: `none` is the null pointer. -/
abbrev PacketPtr := Option Nat

/-- The two flag objects whose address is passed to `SendCheck`. -/
inductive FlagId where
  | nc_flag_1
  | nc_flag_2
deriving DecidableEq, Repr

/-- A `bool *`: `none` is the null pointer, `some f` is `&f`. -/
abbrev FlagPtr := Option FlagId

/-- The transmit queue `m_queue` (a drop-tail FIFO): queued packets, oldest first, and the
packet capacity beyond which `Enqueue` fails. -/
structure Queue where
  items : List PacketPtr
  maxPackets : Nat
deriving DecidableEq, Repr

/-- Member functions that the device hands to `Simulator::Schedule` / `ScheduleNow`, with
their bound arguments. -/
inductive Callback where
  | ChannelSend (p : PacketPtr) (protocol : Nat) (toAddr : Nat) (fromAddr : Nat)
  | SendCheck (packet : PacketPtr) (nc_flag : FlagPtr)
  | Forwarding (p : PacketPtr) (toAddr : Nat)
  | Send (packet : PacketPtr) (dest : Nat) (protocolNumber : Nat)
  | SetSleep
deriving DecidableEq, Repr

/-- One registration with the scheduler: delay in seconds and the callback. -/
structure Event where
  delay : Int
  call : Callback
deriving DecidableEq, Repr

/-- One call `m_channel->Send (p, protocol, to, from, this)`. -/
structure ChannelTx where
  p : PacketPtr
  protocol : Nat
  toAddr : Nat
  fromAddr : Nat
deriving DecidableEq, Repr

/-- Data members of `SimpleNetDevice` read or written by the translated functions.
`m_channel` and `m_receiveErrorModel` record whether the pointer is non-null;
`TransmitCompleteEvent` records `TransmitCompleteEvent.IsRunning ()`. -/
structure Device where
  m_sid : Nat
  m_address : Nat
  l_address : Nat
  r_address : Nat
  m_mtu : Nat
  m_rxPacket : PacketPtr
  m_rxPacket_1 : PacketPtr
  m_txPacket : PacketPtr
  m_txPacket_1 : PacketPtr
  nc_flag_1 : Bool
  nc_flag_2 : Bool
  m_queue : Queue
  TransmitCompleteEvent : Bool
  m_receiveErrorModel : Bool
  m_channel : Bool
deriving DecidableEq, Repr

/-- The device together with the world it acts on: the packet heap, the events registered
with the scheduler, the frames handed to the channel and the `m_phyRxDropTrace` calls,
each in program order. -/
structure State where
  dev : Device
  heap : List Packet
  scheduled : List Event
  channelSent : List ChannelTx
  phyRxDrop : List PacketPtr
deriving DecidableEq, Repr

/-- The member `timeslot`, set to 13 by the constructor (line 230) and never assigned
again. -/
def timeslot : Int := 13

/-! ## Packet primitives -/

/-- Dereference of a `Ptr<Packet>`. -/
def deref (heap : List Packet) (p : PacketPtr) : Option Packet :=
  match p with
  | none => none
  | some a => heap[a]?

/-- `Create<Packet> (size)`: a fresh packet of `size` payload bytes without header or tag. -/
def Create (heap : List Packet) (size : Nat) : PacketPtr × List Packet :=
  (some heap.length, heap ++ [{ headers := [], payload := size, tags := [] }])

/-- `p->Copy ()`: a fresh packet with the same content. -/
def Copy (heap : List Packet) (p : PacketPtr) : Option (PacketPtr × List Packet) :=
  match deref heap p with
  | none => none
  | some pk => some (some heap.length, heap ++ [pk])

/-- `p->GetSize ()`: payload plus the serialized headers. -/
def GetSize (cfg : Config) (pk : Packet) : Nat :=
  pk.payload + cfg.headerSize * pk.headers.length

/-- `p->PeekHeader (h)`: the outermost header, left in place. -/
def PeekHeader (heap : List Packet) (p : PacketPtr) : Option LwsnHeader :=
  match deref heap p with
  | none => none
  | some pk => pk.headers.head?

/-- `p->RemoveHeader (h)`: the outermost header, removed from the packet object. -/
def RemoveHeader (heap : List Packet) (p : PacketPtr) : Option (LwsnHeader × List Packet) :=
  match p with
  | none => none
  | some a =>
    match heap[a]? with
    | none => none
    | some pk =>
      match pk.headers with
      | [] => none
      | hd :: tl => some (hd, heap.set a { pk with headers := tl })

/-- `p->AddHeader (h)`: push `h` in front of the packet object. -/
def AddHeader (heap : List Packet) (p : PacketPtr) (h : LwsnHeader) : Option (List Packet) :=
  match p with
  | none => none
  | some a =>
    match heap[a]? with
    | none => none
    | some pk => some (heap.set a { pk with headers := h :: pk.headers })

/-- `p->AddPacketTag (tag)`. -/
def AddPacketTag (heap : List Packet) (p : PacketPtr) (tag : SimpleTag) : Option (List Packet) :=
  match p with
  | none => none
  | some a =>
    match heap[a]? with
    | none => none
    | some pk => some (heap.set a { pk with tags := tag :: pk.tags })

/-- `p->RemovePacketTag (tag)`: drops the most recent `SimpleTag`, if any. -/
def RemovePacketTag (heap : List Packet) (p : PacketPtr) : Option (List Packet) :=
  match p with
  | none => none
  | some a =>
    match heap[a]? with
    | none => none
    | some pk => some (heap.set a { pk with tags := pk.tags.tail })

/-- `Simulator::Schedule (Seconds (delay), call)` on this device. -/
def schedule (s : State) (delay : Int) (call : Callback) : State :=
  { s with scheduled := s.scheduled ++ [{ delay := delay, call := call }] }

/-- `Simulator::ScheduleNow (call)` on this device. -/
def scheduleNow (s : State) (call : Callback) : State :=
  schedule s 0 call

/-! ## Construction and setters (lines 222-254, 317-357) -/

/-- The constructor `SimpleNetDevice::SimpleNetDevice ()`.  It leaves `m_sid` uninitialised
(parameter `sid0`); the addresses are default `Mac48Address` objects; the transmit queue is
the one created for the `TxQueue` attribute, of capacity `maxPackets`. -/
def SimpleNetDevice (sid0 : Nat) (maxPackets : Nat) : Device :=
  { m_sid := sid0
    m_address := 0
    l_address := 0
    r_address := 0
    m_mtu := 0xffff
    m_rxPacket := none
    m_rxPacket_1 := none
    m_txPacket := none
    m_txPacket_1 := none
    nc_flag_1 := false
    nc_flag_2 := false
    m_queue := { items := [], maxPackets := maxPackets }
    TransmitCompleteEvent := false
    m_receiveErrorModel := false
    m_channel := false }

/-- `SetSid`. -/
def SetSid (d : Device) (sid : Nat) : Device := { d with m_sid := sid }

/-- `SetAddress`. -/
def SetAddress (d : Device) (address : Nat) : Device := { d with m_address := address }

/-- `SetSideAddress`. -/
def SetSideAddress (d : Device) (laddress raddress : Nat) : Device :=
  { d with l_address := laddress, r_address := raddress }

/-- `SetChannel`. -/
def SetChannel (d : Device) : Device := { d with m_channel := true }

/-- `SetMtu`. -/
def SetMtu (d : Device) (mtu : Nat) : Device := { d with m_mtu := mtu }

/-- `SetRxPacket`. -/
def SetRxPacket (s : State) (p : PacketPtr) : State :=
  { s with dev := { s.dev with m_rxPacket := p } }

/-- `SetRxPacket_1`. -/
def SetRxPacket_1 (s : State) (p : PacketPtr) : State :=
  { s with dev := { s.dev with m_rxPacket_1 := p } }

/-- `SetTxPacket`. -/
def SetTxPacket (s : State) (p : PacketPtr) : State :=
  { s with dev := { s.dev with m_txPacket := p } }

/-- `SetTxPacket_1`. -/
def SetTxPacket_1 (s : State) (p : PacketPtr) : State :=
  { s with dev := { s.dev with m_txPacket_1 := p } }

/-- Read of the flag object `f`. -/
def getFlag (d : Device) (f : FlagId) : Bool :=
  match f with
  | .nc_flag_1 => d.nc_flag_1
  | .nc_flag_2 => d.nc_flag_2

/-- Assignment `f = v` to one of the two flag objects. -/
def setFlag (s : State) (f : FlagId) (v : Bool) : State :=
  match f with
  | .nc_flag_1 => { s with dev := { s.dev with nc_flag_1 := v } }
  | .nc_flag_2 => { s with dev := { s.dev with nc_flag_2 := v } }

/-! ## Encode / decode (lines 504-604) -/

/-- `SimpleNetDevice::encoding` (lines 504-529). -/
def encoding (cfg : Config) (s : State) (p1 p2 : PacketPtr) : Option (PacketPtr × State) :=
  match RemoveHeader s.heap p1 with
  | none => none
  | some (temp1, heap1) =>
    match RemoveHeader heap1 p2 with
    | none => none
    | some (temp2, heap2) =>
      let ncpacket := (Create heap2 100).1
      let heap3 := (Create heap2 100).2
      let ncHeader : LwsnHeader :=
        { cfg.defaultHeader with
          type := MsgType.NETWORK_CODING
          osid := temp1.osid
          psid := s.dev.m_sid
          r := 0
          e := 1
          osid2 := temp2.osid }
      match AddHeader heap3 ncpacket ncHeader with
      | none => none
      | some heap4 => some (ncpacket, { s with heap := heap4 })

/-- The body shared by the four matching branches of `decoding` (lines 547-558, 561-572,
575-586, 589-600): a fresh 100-byte packet with a `FORWARDING` header carrying `osid`. -/
def decoded (cfg : Config) (s : State) (heap1 : List Packet) (osid : Nat) :
    Option (PacketPtr × State) :=
  let packet := (Create heap1 100).1
  let heap2 := (Create heap1 100).2
  let sendHeader : LwsnHeader :=
    { cfg.defaultHeader with
      type := MsgType.FORWARDING
      osid := osid
      psid := s.dev.m_sid
      e := 0 }
  match AddHeader heap2 packet sendHeader with
  | none => none
  | some heap3 => some (packet, { s with heap := heap3 })

/-- `SimpleNetDevice::decoding` (lines 531-604). -/
def decoding (cfg : Config) (s : State) (p : PacketPtr) : Option (PacketPtr × State) :=
  match PeekHeader s.heap s.dev.m_txPacket with
  | none => none
  | some temp1 =>
    match PeekHeader s.heap s.dev.m_txPacket_1 with
    | none => none
    | some temp3 =>
      match RemoveHeader s.heap p with
      | none => none
      | some (temp2, heap1) =>
        if temp1.osid = temp2.osid then decoded cfg s heap1 temp2.osid2
        else if temp1.osid = temp2.osid2 then decoded cfg s heap1 temp2.osid
        else if temp3.osid = temp2.osid then decoded cfg s heap1 temp2.osid2
        else if temp3.osid = temp2.osid2 then decoded cfg s heap1 temp2.osid
        else some (p, { s with heap := heap1 })

/-! ## Coding check and forwarding (lines 606-695) -/

/-- `SimpleNetDevice::NetworkCoding` (lines 606-629). -/
def NetworkCoding (cfg : Config) (s : State) (now : Int) (packet : PacketPtr) : Option State :=
  let time : Int := now
  if time.tmod timeslot ≤ 6 then
    match encoding cfg s packet s.dev.m_rxPacket with
    | none => none
    | some (ncpacket, s1) =>
      let s2 := SetRxPacket s1 none
      let fromAddr := s2.dev.m_address
      some (scheduleNow
        (scheduleNow s2 (Callback.ChannelSend ncpacket 0 s2.dev.l_address fromAddr))
        (Callback.ChannelSend ncpacket 0 s2.dev.r_address fromAddr))
  else
    match encoding cfg s packet s.dev.m_rxPacket_1 with
    | none => none
    | some (ncpacket, s1) =>
      let s2 := SetRxPacket_1 s1 none
      let fromAddr := s2.dev.m_address
      some (scheduleNow
        (scheduleNow s2 (Callback.ChannelSend ncpacket 0 s2.dev.l_address fromAddr))
        (Callback.ChannelSend ncpacket 0 s2.dev.r_address fromAddr))

/-- The branch of `SendCheck` guarded by `nc_flag == false` (lines 644-655). -/
def SendCheck_single (cfg : Config) (s : State) (packet : PacketPtr) : Option State :=
  match RemoveHeader s.heap packet with
  | none => none
  | some (tmpHeader, heap1) =>
    let sendHeader : LwsnHeader :=
      { cfg.defaultHeader with
        e := 0
        osid := tmpHeader.osid
        psid := s.dev.m_sid }
    match AddHeader heap1 packet sendHeader with
    | none => none
    | some heap2 =>
      let s1 : State := { s with heap := heap2 }
      if tmpHeader.osid > s.dev.m_sid then
        some (scheduleNow s1 (Callback.ChannelSend packet 0 s.dev.r_address s.dev.m_address))
      else
        some (scheduleNow s1 (Callback.ChannelSend packet 0 s.dev.l_address s.dev.m_address))

/-- `SimpleNetDevice::SendCheck` (lines 631-665).  The parameter `nc_flag` is a `bool *`;
the guard `nc_flag == false` compares the pointer itself with the null pointer, and the
final `*nc_flag = false` writes through it. -/
def SendCheck (cfg : Config) (s : State) (now : Int) (packet : PacketPtr) (nc_flag : FlagPtr) :
    Option State :=
  match PeekHeader s.heap packet with
  | none => none
  | some _ =>
    let resolved : Option State :=
      if nc_flag = none then SendCheck_single cfg s packet
      else NetworkCoding cfg s now packet
    match resolved with
    | none => none
    | some s1 =>
      match nc_flag with
      | none => none
      | some f => some (setFlag s1 f false)

/-- `SimpleNetDevice::Forwarding` (lines 667-682). -/
def Forwarding (cfg : Config) (s : State) (p : PacketPtr) (toAddr : Nat) : Option State :=
  match RemoveHeader s.heap p with
  | none => none
  | some (tempHeader, heap1) =>
    let sendHeader : LwsnHeader :=
      { cfg.defaultHeader with
        type := MsgType.FORWARDING
        psid := s.dev.m_sid
        osid := tempHeader.osid
        e := 0 }
    match AddHeader heap1 p sendHeader with
    | none => none
    | some heap2 =>
      some (scheduleNow { s with heap := heap2 } (Callback.ChannelSend p 0 toAddr s.dev.m_address))

/-- `SimpleNetDevice::OriginalTransmission` (lines 684-695). -/
def OriginalTransmission (cfg : Config) (s : State) (p : PacketPtr) : Option State :=
  let sendHeader : LwsnHeader :=
    { cfg.defaultHeader with
      type := MsgType.ORIGINAL_TRANSMISSION
      osid := s.dev.m_sid
      psid := s.dev.m_sid
      e := 0 }
  match AddHeader s.heap p sendHeader with
  | none => none
  | some heap1 =>
    let s1 : State := { s with heap := heap1 }
    some (scheduleNow
      (scheduleNow s1 (Callback.ChannelSend p 0 s.dev.l_address s.dev.m_address))
      (Callback.ChannelSend p 0 s.dev.r_address s.dev.m_address))

/-! ## Schedule-Relay table (lines 697-829) -/

/-- `SimpleNetDevice::SendSchedule` (lines 697-829): the `switch` on `GetSid ()`. -/
def SendSchedule (s : State) (p : PacketPtr) (toAddr fromAddr protocolNumber : Nat)
    (header : LwsnHeader) : State :=
  if s.dev.m_sid = 1 then s
  else if s.dev.m_sid = 2 then
    if header.osid = 1 then
      let s1 := setFlag s FlagId.nc_flag_1 true
      let s2 := SetRxPacket_1 s1 p
      schedule s2 3 (Callback.SendCheck p (some FlagId.nc_flag_1))
    else if header.osid = 3 then
      if s.dev.nc_flag_1 = false then
        schedule s 1 (Callback.SendCheck p (some FlagId.nc_flag_1))
      else SetRxPacket s p
    else if header.osid = 4 then schedule s 6 (Callback.Forwarding p s.dev.l_address)
    else if header.osid = 5 then schedule s 5 (Callback.Forwarding p s.dev.l_address)
    else schedule s 4 (Callback.Forwarding p s.dev.l_address)
  else if s.dev.m_sid = 3 then
    if header.osid = 1 then
      let s1 := setFlag s FlagId.nc_flag_2 true
      schedule s1 3 (Callback.SendCheck p (some FlagId.nc_flag_2))
    else if header.osid = 2 then
      let s1 := SetRxPacket_1 s p
      if s1.dev.nc_flag_1 = false then
        schedule s1 3 (Callback.SendCheck p (some FlagId.nc_flag_1))
      else SetRxPacket s1 p
    else if header.osid = 4 then
      let s1 := setFlag s FlagId.nc_flag_1 true
      schedule s1 4 (Callback.SendCheck p (some FlagId.nc_flag_1))
    else if header.osid = 5 then
      if s.dev.nc_flag_2 = false then
        schedule s 2 (Callback.SendCheck p (some FlagId.nc_flag_2))
      else SetRxPacket_1 s p
    else schedule s 1 (Callback.Forwarding p s.dev.l_address)
  else if s.dev.m_sid = 4 then
    if header.osid = 1 then schedule s 3 (Callback.Forwarding p s.dev.r_address)
    else if header.osid = 2 then
      if s.dev.nc_flag_2 = false then
        schedule s 3 (Callback.SendCheck p (some FlagId.nc_flag_2))
      else SetRxPacket_1 s p
    else if header.osid = 3 then
      if s.dev.nc_flag_1 = false then
        schedule s 3 (Callback.SendCheck p (some FlagId.nc_flag_1))
      else SetRxPacket s p
    else if header.osid = 5 then
      let s1 := SetRxPacket_1 s p
      let s2 := setFlag s1 FlagId.nc_flag_1 true
      schedule s2 4 (Callback.SendCheck p (some FlagId.nc_flag_1))
    else
      let s1 := setFlag s FlagId.nc_flag_2 true
      schedule s1 4 (Callback.SendCheck p (some FlagId.nc_flag_2))
  else if s.dev.m_sid = 5 then
    if header.osid = 1 then schedule s 3 (Callback.Forwarding p s.dev.r_address)
    else if header.osid = 2 then schedule s 4 (Callback.Forwarding p s.dev.r_address)
    else if header.osid = 3 then schedule s 5 (Callback.Forwarding p s.dev.r_address)
    else if header.osid = 4 then
      let s1 := setFlag s FlagId.nc_flag_1 true
      schedule s1 3 (Callback.SendCheck p (some FlagId.nc_flag_1))
    else
      let s1 := SetRxPacket_1 s p
      if s1.dev.nc_flag_1 = false then
        schedule s1 1 (Callback.SendCheck p (some FlagId.nc_flag_1))
      else SetRxPacket s1 p
  else s

/-! ## Transmit path (lines 830-950) -/

/-- `SimpleNetDevice::SetSleep` (lines 830-834): drops the head of the transmit queue. -/
def SetSleep (s : State) : State :=
  if s.dev.m_queue.items.length > 0 then
    { s with dev := { s.dev with m_queue := { s.dev.m_queue with items := s.dev.m_queue.items.tail } } }
  else s

/-- `SimpleNetDevice::ChannelSend` (lines 835-840). -/
def ChannelSend (s : State) (p : PacketPtr) (protocol toAddr fromAddr : Nat) : Option State :=
  if s.dev.m_channel = false then none
  else
    let s1 : State :=
      { s with channelSent := s.channelSent ++
          [{ p := p, protocol := protocol, toAddr := toAddr, fromAddr := fromAddr }] }
    some (schedule s1 1 Callback.SetSleep)

/-- The slot computation of `SendFrom` (lines 888-941): the delay, in seconds, at which
`ChannelSend` is scheduled by a device with id `m_sid` when the clock reads `now`. -/
def slotDelay (m_sid : Nat) (now : Int) : Int :=
  let delay : Int := now
  let slot : Int := if delay = 0 then 0 else delay.tmod 13
  if m_sid = 1 ∨ m_sid = 4 then
    if slot = 1 then 0
    else if slot = 0 then 1
    else 14 - slot
  else if m_sid = 2 ∨ m_sid = 5 then
    if slot = 2 then 0
    else if slot = 1 then 1
    else if slot = 0 then 2
    else 15 - slot
  else
    if slot = 3 then 0
    else if slot = 1 then 2
    else if slot = 2 then 1
    else if slot = 0 then 3
    else 16 - slot

/-- `SimpleNetDevice::SendFrom` (lines 849-950).  The result is the returned `bool` and the
state after the call.  The transmission time `txTime` is computed and never used. -/
def SendFrom (cfg : Config) (s : State) (now : Int) (p : PacketPtr)
    (source dest protocolNumber : Nat) : Option (Bool × State) :=
  match deref s.heap p with
  | none => none
  | some pk =>
    if GetSize cfg pk > s.dev.m_mtu then some (false, s)
    else
      match Copy s.heap p with
      | none => none
      | some (packet, heap1) =>
        let toAddr := dest
        let fromAddr := source
        let tag : SimpleTag := { m_src := fromAddr, m_dst := toAddr, m_protocolNumber := protocolNumber }
        match AddPacketTag heap1 p tag with
        | none => none
        | some heap2 =>
          if s.dev.m_queue.items.length > 0 then
            match RemovePacketTag heap2 p with
            | none => none
            | some heap3 =>
              some (false, schedule { s with heap := heap3 } 13 (Callback.Send p dest protocolNumber))
          else if s.dev.m_queue.items.length < s.dev.m_queue.maxPackets then
            let items1 := s.dev.m_queue.items ++ [p]
            if items1.length = 1 ∧ s.dev.TransmitCompleteEvent = false then
              match items1 with
              | [] => none
              | q :: items2 =>
                match RemovePacketTag heap2 q with
                | none => none
                | some heap3 =>
                  let s1 : State :=
                    { s with
                      heap := heap3
                      dev := { s.dev with m_queue := { s.dev.m_queue with items := items2 } } }
                  let s2 := schedule s1 (slotDelay s.dev.m_sid now)
                    (Callback.ChannelSend q protocolNumber toAddr fromAddr)
                  some (true, SetTxPacket s2 q)
            else
              some (true,
                { s with
                  heap := heap2
                  dev := { s.dev with m_queue := { s.dev.m_queue with items := items1 } } })
          else if s.dev.m_channel = false then none
          else
            some (true,
              { s with
                heap := heap2
                channelSent := s.channelSent ++
                  [{ p := packet, protocol := protocolNumber, toAddr := toAddr, fromAddr := fromAddr }] })

/-- `SimpleNetDevice::Send` (lines 841-847). -/
def Send (cfg : Config) (s : State) (now : Int) (packet : PacketPtr) (dest protocolNumber : Nat) :
    Option (Bool × State) :=
  SendFrom cfg s now packet s.dev.m_address dest protocolNumber

/-! ## Receive (lines 256-315) -/

/-- `SimpleNetDevice::Receive` (lines 256-315).  `isCorrupt` is the answer of
`m_receiveErrorModel->IsCorrupt (packet)`, consulted only when an error model is set. -/
def Receive (cfg : Config) (s : State) (packet : PacketPtr) (protocol toAddr fromAddr : Nat)
    (isCorrupt : Bool) : Option State :=
  if s.dev.m_receiveErrorModel = true ∧ isCorrupt = true then
    some { s with phyRxDrop := s.phyRxDrop ++ [packet] }
  else if toAddr = s.dev.m_address then
    if s.dev.m_sid = 1 ∨ s.dev.m_sid = 6 then some s
    else
      match PeekHeader s.heap packet with
      | none => none
      | some receiveHeader =>
        if receiveHeader.type = MsgType.ORIGINAL_TRANSMISSION then
          some (SendSchedule s packet toAddr fromAddr protocol receiveHeader)
        else if receiveHeader.type = MsgType.FORWARDING then
          some (SendSchedule s packet toAddr fromAddr protocol receiveHeader)
        else if receiveHeader.type = MsgType.NETWORK_CODING then
          match decoding cfg s packet with
          | none => none
          | some (p, s1) =>
            match PeekHeader s1.heap p with
            | none => none
            | some receiveHeader1 =>
              some (SendSchedule s1 p toAddr fromAddr protocol receiveHeader1)
        else some s
  else some s

/-! ## Specification-side vocabulary -/

/-- The slot phase of a node id: 1 for ids 1 and 4, 2 for ids 2 and 5, 3 for every other
id. -/
def slotPhase (m_sid : Nat) : Int :=
  if m_sid = 1 ∨ m_sid = 4 then 1
  else if m_sid = 2 ∨ m_sid = 5 then 2
  else 3

/-- The heap after an accepted or retried `SendFrom` of the packet at `a`: one copy has
been allocated, and the tag attached to the packet has been removed again. -/
def heapAfterSend (heap : List Packet) (a : Nat) (pk : Packet) (tag : SimpleTag) : List Packet :=
  ((heap ++ [pk]).set a { pk with tags := tag :: pk.tags }).set a
    { pk with tags := (tag :: pk.tags).tail }

/-- Encoding at the device of `s`, followed by decoding of the coded packet at the device
`decoder` over the same packet heap: the header of the recovered packet. -/
def roundTrip (cfg : Config) (s : State) (decoder : Device) (p1 p2 : PacketPtr) :
    Option LwsnHeader :=
  match encoding cfg s p1 p2 with
  | none => none
  | some (nc, s1) =>
    match decoding cfg { s1 with dev := decoder } nc with
    | none => none
    | some (q, s2) => PeekHeader s2.heap q

/-- The `pending_rx` slot that `NetworkCoding` reads as the partner at clock value `now`. -/
def partnerSlot (d : Device) (now : Int) : PacketPtr :=
  if now.tmod timeslot ≤ 6 then d.m_rxPacket else d.m_rxPacket_1

/-- The device after `NetworkCoding` has cleared the partner slot chosen at clock value
`now`. -/
def clearPartner (d : Device) (now : Int) : Device :=
  if now.tmod timeslot ≤ 6 then { d with m_rxPacket := none } else { d with m_rxPacket_1 := none }

/-- The header written by `encoding` at a device with id `m_sid` for constituent origin
ids `o1` and `o2`. -/
def codedHeader (cfg : Config) (m_sid o1 o2 : Nat) : LwsnHeader :=
  { cfg.defaultHeader with
    type := MsgType.NETWORK_CODING
    osid := o1
    psid := m_sid
    r := 0
    e := 1
    osid2 := o2 }

/-- The origin id that the claim on decoding names: the id of the coded pair other than
the one matched, the pairing used being the first that holds in the order `a = o1`,
`a = o2`, `b = o1`, `b = o2`. -/
def unmatchedId (a b o1 o2 : Nat) : Nat :=
  if a = o1 then o2
  else if a = o2 then o1
  else if b = o1 then o2
  else o1

/-- The header written by the matching branches of `decoding` at a device with id `m_sid`
for the recovered origin id `osid`. -/
def forwardingHeader (cfg : Config) (m_sid osid : Nat) : LwsnHeader :=
  { cfg.defaultHeader with
    type := MsgType.FORWARDING
    osid := osid
    psid := m_sid
    e := 0 }

/-- A sample configuration: a default-constructed header with type `ORIGINAL_TRANSMISSION`
and zero fields, and 8-byte headers. -/
def sampleConfig : Config :=
  { defaultHeader := ⟨MsgType.ORIGINAL_TRANSMISSION, 0, 0, 0, 0, 0⟩, headerSize := 8 }

/-- A sample device: constructed, attached to the channel and wired as node `sid` of the
chain whose node `i` has address `i` (node 6 has itself as right neighbour, as in the
scenario driver). -/
def sampleDevice (sid : Nat) : Device :=
  SetSideAddress (SetSid (SetChannel (SetAddress (SimpleNetDevice 0 100) sid)) sid)
    (if sid = 1 then 1 else sid - 1) (if sid = 6 then 6 else sid + 1)

/-- A sample 100-byte packet carrying one header of the given type, origin id and relay
id. -/
def samplePacket (type : MsgType) (osid psid : Nat) : Packet :=
  { headers := [⟨type, osid, 0, psid, 0, 0⟩], payload := 100, tags := [] }

/-- The state after `NetworkCoding` has encoded the packet at `a` (outermost header `hd`,
remaining headers `tl`) with the partner at `b` (outermost header `hq`, remaining headers
`tlq`) at clock value `now`: both packets stripped, one coded packet allocated, the partner
slot cleared and two immediate `ChannelSend`s of the coded packet scheduled, the first to
the left and the second to the right neighbour. -/
def afterCoding (cfg : Config) (s : State) (now : Int) (a b : Nat) (pk pkq : Packet)
    (hd hq : LwsnHeader) (tl tlq : List LwsnHeader) : State :=
  { dev := clearPartner s.dev now
    heap := ((s.heap.set a { pk with headers := tl }).set b { pkq with headers := tlq }) ++
      [{ headers := [codedHeader cfg s.dev.m_sid hd.osid hq.osid]
         payload := 100
         tags := [] }]
    scheduled := s.scheduled ++
      [{ delay := 0
         call := Callback.ChannelSend (some s.heap.length) 0 s.dev.l_address s.dev.m_address },
       { delay := 0
         call := Callback.ChannelSend (some s.heap.length) 0 s.dev.r_address s.dev.m_address }]
    channelSent := s.channelSent
    phyRxDrop := s.phyRxDrop }

/-- The operations of one device that the scenario driver, the channel and the scheduler
invoke: the two send entry points, `Receive`, and the scheduled callbacks. -/
inductive Op where
  | Send (now : Int) (packet : PacketPtr) (dest protocolNumber : Nat)
  | SendFrom (now : Int) (p : PacketPtr) (source dest protocolNumber : Nat)
  | Receive (packet : PacketPtr) (protocol toAddr fromAddr : Nat) (isCorrupt : Bool)
  | SendCheck (now : Int) (packet : PacketPtr) (nc_flag : FlagPtr)
  | Forwarding (p : PacketPtr) (toAddr : Nat)
  | ChannelSend (p : PacketPtr) (protocol toAddr fromAddr : Nat)
  | SetSleep
deriving DecidableEq, Repr

/-- One operation applied to a state; the `bool` returned by the send entry points is
dropped. -/
def step (cfg : Config) (s : State) (op : Op) : Option State :=
  match op with
  | Op.Send now packet dest protocolNumber =>
    (Send cfg s now packet dest protocolNumber).map Prod.snd
  | Op.SendFrom now p source dest protocolNumber =>
    (SendFrom cfg s now p source dest protocolNumber).map Prod.snd
  | Op.Receive packet protocol toAddr fromAddr isCorrupt =>
    Receive cfg s packet protocol toAddr fromAddr isCorrupt
  | Op.SendCheck now packet nc_flag => SendCheck cfg s now packet nc_flag
  | Op.Forwarding p toAddr => Forwarding cfg s p toAddr
  | Op.ChannelSend p protocol toAddr fromAddr => ChannelSend s p protocol toAddr fromAddr
  | Op.SetSleep => some (SetSleep s)

/-- States reachable from `s0` by operations of the device that return. -/
inductive Reachable (cfg : Config) (s0 : State) : State → Prop where
  | init : Reachable cfg s0 s0
  | next (s s1 : State) (op : Op) :
      Reachable cfg s0 s → step cfg s op = some s1 → Reachable cfg s0 s1

/-- What the relay procedures leave alone: `s1` has the `pending_tx` slots, the transmit
queue, the transmit-complete event, the packet heap and the channel sends of `s`. -/
def sameFrame (s s1 : State) : Prop :=
  s1.dev.m_txPacket = s.dev.m_txPacket
    ∧ s1.dev.m_txPacket_1 = s.dev.m_txPacket_1
    ∧ s1.dev.m_queue = s.dev.m_queue
    ∧ s1.dev.TransmitCompleteEvent = s.dev.TransmitCompleteEvent
    ∧ s1.heap = s.heap
    ∧ s1.channelSent = s.channelSent

/-- The transmit-side members of the device are the same in `s1` as in `s`: both
`pending_tx` slots, the transmit queue and the transmit-complete event. -/
def sameTx (s s1 : State) : Prop :=
  s1.dev.m_txPacket = s.dev.m_txPacket
    ∧ s1.dev.m_txPacket_1 = s.dev.m_txPacket_1
    ∧ s1.dev.m_queue = s.dev.m_queue
    ∧ s1.dev.TransmitCompleteEvent = s.dev.TransmitCompleteEvent

/-! # Theorems -/

/-! ## Heap lemmas -/

theorem lt_length_of_getElem? {heap : List Packet} {a : Nat} {pk : Packet}
    (h : heap[a]? = some pk) : a < heap.length :=
  (List.getElem?_eq_some.1 h).1

theorem getElem?_append_of_getElem? {heap : List Packet} {a : Nat} {pk : Packet}
    (h : heap[a]? = some pk) (tl : List Packet) : (heap ++ tl)[a]? = some pk := by
  rw [List.getElem?_append_left (lt_length_of_getElem? h)]; exact h

theorem getElem?_set_of_getElem? {heap : List Packet} {a : Nat} {pk : Packet}
    (h : heap[a]? = some pk) (v : Packet) : (heap.set a v)[a]? = some v := by
  simp [lt_length_of_getElem? h]

theorem Copy_eq {heap : List Packet} {a : Nat} {pk : Packet} (h : heap[a]? = some pk) :
    Copy heap (some a) = some (some heap.length, heap ++ [pk]) := by
  simp [Copy, deref, h]

theorem AddPacketTag_eq {heap : List Packet} {a : Nat} {pk : Packet} (h : heap[a]? = some pk)
    (tag : SimpleTag) :
    AddPacketTag heap (some a) tag = some (heap.set a { pk with tags := tag :: pk.tags }) := by
  simp [AddPacketTag, h]

theorem RemovePacketTag_eq {heap : List Packet} {a : Nat} {pk : Packet}
    (h : heap[a]? = some pk) :
    RemovePacketTag heap (some a) = some (heap.set a { pk with tags := pk.tags.tail }) := by
  simp [RemovePacketTag, h]

theorem RemoveHeader_eq {heap : List Packet} {a : Nat} {pk : Packet} {hd : LwsnHeader}
    {tl : List LwsnHeader} (h : heap[a]? = some pk) (hh : pk.headers = hd :: tl) :
    RemoveHeader heap (some a) = some (hd, heap.set a { pk with headers := tl }) := by
  simp [RemoveHeader, h, hh]

theorem AddHeader_eq {heap : List Packet} {a : Nat} {pk : Packet} (h : heap[a]? = some pk)
    (hd : LwsnHeader) :
    AddHeader heap (some a) hd = some (heap.set a { pk with headers := hd :: pk.headers }) := by
  simp [AddHeader, h]

theorem PeekHeader_eq {heap : List Packet} {a : Nat} {pk : Packet} {hd : LwsnHeader}
    {tl : List LwsnHeader} (h : heap[a]? = some pk) (hh : pk.headers = hd :: tl) :
    PeekHeader heap (some a) = some hd := by
  simp [PeekHeader, deref, h, hh]

/-! ## Slot arithmetic -/

theorem slotDelay_eq (m_sid : Nat) (now : Int) (hnow : 0 ≤ now) :
    slotDelay m_sid now = (slotPhase m_sid - now) % 13 := by
  have ht : now.tmod 13 = now % 13 := Int.tmod_eq_emod hnow (by decide)
  unfold slotDelay slotPhase
  simp only [ht]
  split_ifs <;> omega

theorem slotPhase_range (m_sid : Nat) : 1 ≤ slotPhase m_sid ∧ slotPhase m_sid ≤ 3 := by
  unfold slotPhase
  split_ifs <;> omega

/-! ## Transmit path: accepted send -/

/-- The accepting path of `SendFrom`, computed. -/
theorem SendFrom_accept_eq (cfg : Config) (s : State) (now : Int) (a : Nat) (pk : Packet)
    (source dest protocolNumber : Nat)
    (hp : s.heap[a]? = some pk)
    (hsize : GetSize cfg pk ≤ s.dev.m_mtu)
    (hq : s.dev.m_queue.items = [])
    (hcap : 0 < s.dev.m_queue.maxPackets)
    (hrun : s.dev.TransmitCompleteEvent = false) :
    SendFrom cfg s now (some a) source dest protocolNumber =
      some (true, SetTxPacket (schedule
        { s with
          heap := heapAfterSend s.heap a pk
            { m_src := source, m_dst := dest, m_protocolNumber := protocolNumber }
          dev := { s.dev with m_queue := { s.dev.m_queue with items := [] } } }
        (slotDelay s.dev.m_sid now)
        (Callback.ChannelSend (some a) protocolNumber dest source)) (some a)) := by
  have h1 := getElem?_append_of_getElem? hp [pk]
  have h2 := getElem?_set_of_getElem? h1
    { pk with tags := { m_src := source, m_dst := dest, m_protocolNumber := protocolNumber } :: pk.tags }
  simp only [SendFrom, deref, hp, Copy_eq hp, AddPacketTag_eq h1, hq, hrun,
    Nat.not_lt.2 hsize, List.length_nil, lt_irrefl, if_false, hcap, if_true,
    List.nil_append, List.length_singleton, and_self, RemovePacketTag_eq h2, heapAfterSend]

/-! ## Transmit path: slot alignment -/

/-- C1: an accepted `SendFrom` (packet within the MTU, empty transmit queue, enqueue
succeeds, no transmission in flight) returns `true` and schedules exactly one `ChannelSend`
of the packet, at the delay `d = (phase - now) mod 13`, which lies in `0..12` and makes
`(now + d) mod 13` equal to the phase of the node id; nothing is handed to the channel
directly. -/
theorem SendFrom_slot_aligned (cfg : Config) (s : State) (now : Int) (a : Nat) (pk : Packet)
    (source dest protocolNumber : Nat)
    (hnow : 0 ≤ now)
    (hp : s.heap[a]? = some pk)
    (hsize : GetSize cfg pk ≤ s.dev.m_mtu)
    (hq : s.dev.m_queue.items = [])
    (hcap : 0 < s.dev.m_queue.maxPackets)
    (hrun : s.dev.TransmitCompleteEvent = false) :
    ∃ s1 d, SendFrom cfg s now (some a) source dest protocolNumber = some (true, s1)
      ∧ s1.scheduled = s.scheduled ++
          [{ delay := d, call := Callback.ChannelSend (some a) protocolNumber dest source }]
      ∧ s1.channelSent = s.channelSent
      ∧ d = (slotPhase s.dev.m_sid - now) % 13
      ∧ 0 ≤ d ∧ d ≤ 12
      ∧ (now + d) % 13 = slotPhase s.dev.m_sid := by
  have hr := slotPhase_range s.dev.m_sid
  refine ⟨_, (slotPhase s.dev.m_sid - now) % 13,
    SendFrom_accept_eq cfg s now a pk source dest protocolNumber hp hsize hq hcap hrun,
    ?_, ?_, rfl, ?_, ?_, ?_⟩
  · simp [SetTxPacket, schedule, slotDelay_eq _ _ hnow]
  · simp [SetTxPacket, schedule]
  · omega
  · omega
  · omega

/-- Witness for C1: node 4 at time 20 (slot 7) with a 100-byte packet. -/
theorem SendFrom_slot_aligned_witness :
    ∃ s1 d, SendFrom ⟨⟨MsgType.ORIGINAL_TRANSMISSION, 0, 0, 0, 0, 0⟩, 8⟩
        ⟨SetChannel (SetSid (SimpleNetDevice 0 100) 4), [⟨[], 100, []⟩], [], [], []⟩
        20 (some 0) 4 5 0 = some (true, s1)
      ∧ s1.scheduled = [] ++ [{ delay := d, call := Callback.ChannelSend (some 0) 0 5 4 }]
      ∧ s1.channelSent = []
      ∧ d = (slotPhase 4 - 20) % 13
      ∧ 0 ≤ d ∧ d ≤ 12
      ∧ (20 + d) % 13 = slotPhase 4 :=
  SendFrom_slot_aligned ⟨⟨MsgType.ORIGINAL_TRANSMISSION, 0, 0, 0, 0, 0⟩, 8⟩
    ⟨SetChannel (SetSid (SimpleNetDevice 0 100) 4), [⟨[], 100, []⟩], [], [], []⟩
    20 0 ⟨[], 100, []⟩ 4 5 0 (by decide) rfl (by decide) rfl (by decide) rfl

/-- C2: slot exclusivity.  For two node ids of different slot-phase groups (different
`slotPhase`) and any two call times `t1, t2 >= 0`, the send times `t + slotDelay id t`
computed by the slot block of `SendFrom` are never congruent modulo 13. -/
theorem slot_exclusivity (id1 id2 : Nat) (t1 t2 : Int) (h1 : 0 ≤ t1) (h2 : 0 ≤ t2)
    (hg : slotPhase id1 ≠ slotPhase id2) :
    (t1 + slotDelay id1 t1) % 13 ≠ (t2 + slotDelay id2 t2) % 13 := by
  have r1 := slotPhase_range id1
  have r2 := slotPhase_range id2
  rw [slotDelay_eq _ _ h1, slotDelay_eq _ _ h2]
  have e1 : (t1 + (slotPhase id1 - t1) % 13) % 13 = slotPhase id1 := by omega
  have e2 : (t2 + (slotPhase id2 - t2) % 13) % 13 = slotPhase id2 := by omega
  rw [e1, e2]
  exact hg

/-- Witness for C2: node 4 called at time 20 and node 5 called at time 33. -/
theorem slot_exclusivity_witness :
    (20 + slotDelay 4 20) % 13 ≠ (33 + slotDelay 5 33) % 13 :=
  slot_exclusivity 4 5 20 33 (by decide) (by decide) (by decide)

/-! ## Encode -/

/-- The result of `encoding` on two distinct packets that each carry a header, computed. -/
theorem encoding_eq (cfg : Config) (s : State) (a1 a2 : Nat) (pk1 pk2 : Packet)
    (hd1 hd2 : LwsnHeader) (tl1 tl2 : List LwsnHeader)
    (hne : a1 ≠ a2)
    (h1 : s.heap[a1]? = some pk1) (hh1 : pk1.headers = hd1 :: tl1)
    (h2 : s.heap[a2]? = some pk2) (hh2 : pk2.headers = hd2 :: tl2) :
    encoding cfg s (some a1) (some a2) =
      some (some s.heap.length,
        { s with heap :=
            ((s.heap.set a1 { pk1 with headers := tl1 }).set a2 { pk2 with headers := tl2 }) ++
              [{ headers := [codedHeader cfg s.dev.m_sid hd1.osid hd2.osid]
                 payload := 100
                 tags := [] }] }) := by
  have h2a : (s.heap.set a1 { pk1 with headers := tl1 })[a2]? = some pk2 := by
    rw [List.getElem?_set_ne hne]; exact h2
  have hlen : ((s.heap.set a1 { pk1 with headers := tl1 }).set a2
      { pk2 with headers := tl2 }).length = s.heap.length := by simp
  simp only [encoding, RemoveHeader_eq h1 hh1, RemoveHeader_eq h2a hh2, Create, AddHeader, hlen]
  have hget : (((s.heap.set a1 { pk1 with headers := tl1 }).set a2
      { pk2 with headers := tl2 }) ++
        [({ headers := [], payload := 100, tags := [] } : Packet)])[s.heap.length]? =
      some { headers := [], payload := 100, tags := [] } := by
    rw [← hlen]; exact List.getElem?_concat_length _ _
  simp only [hget]
  have hset : ∀ (x y : Packet), (((s.heap.set a1 { pk1 with headers := tl1 }).set a2
      { pk2 with headers := tl2 }) ++ [x]).set s.heap.length y =
      ((s.heap.set a1 { pk1 with headers := tl1 }).set a2 { pk2 with headers := tl2 }) ++ [y] := by
    intro x y
    rw [← hlen, List.set_append_right _ _ (le_refl _)]; simp
  simp only [hset, codedHeader]

/-- C3: encode header bookkeeping.  For two distinct packets that each carry a header,
`encoding` returns one new packet (a fresh heap cell) whose only header has type
`NETWORK_CODING`, `osid` the origin id of `p1`, `osid2` the origin id of `p2` and `psid`
the id of the node; both input packets have lost their outermost header; the device and
the scheduler are untouched. -/
theorem encoding_header_bookkeeping (cfg : Config) (s : State) (a1 a2 : Nat) (pk1 pk2 : Packet)
    (hd1 hd2 : LwsnHeader) (tl1 tl2 : List LwsnHeader)
    (hne : a1 ≠ a2)
    (h1 : s.heap[a1]? = some pk1) (hh1 : pk1.headers = hd1 :: tl1)
    (h2 : s.heap[a2]? = some pk2) (hh2 : pk2.headers = hd2 :: tl2) :
    ∃ s1 h, encoding cfg s (some a1) (some a2) = some (some s.heap.length, s1)
      ∧ s.heap[s.heap.length]? = none
      ∧ s1.heap.length = s.heap.length + 1
      ∧ s1.heap[s.heap.length]? = some { headers := [h], payload := 100, tags := [] }
      ∧ h.type = MsgType.NETWORK_CODING
      ∧ h.osid = hd1.osid
      ∧ h.osid2 = hd2.osid
      ∧ h.psid = s.dev.m_sid
      ∧ s1.heap[a1]? = some { pk1 with headers := tl1 }
      ∧ s1.heap[a2]? = some { pk2 with headers := tl2 }
      ∧ s1.dev = s.dev ∧ s1.scheduled = s.scheduled ∧ s1.channelSent = s.channelSent := by
  have hl1 := lt_length_of_getElem? h1
  have hl2 := lt_length_of_getElem? h2
  refine ⟨_, codedHeader cfg s.dev.m_sid hd1.osid hd2.osid,
    encoding_eq cfg s a1 a2 pk1 pk2 hd1 hd2 tl1 tl2 hne h1 hh1 h2 hh2,
    ?_, ?_, ?_, rfl, rfl, rfl, rfl, ?_, ?_, rfl, rfl, rfl⟩
  · simp
  · simp
  · have hlen : ((s.heap.set a1 { pk1 with headers := tl1 }).set a2
        { pk2 with headers := tl2 }).length = s.heap.length := by simp
    show (_ ++ _)[s.heap.length]? = _
    rw [← hlen]; exact List.getElem?_concat_length _ _
  · show (_ ++ _)[a1]? = _
    rw [List.getElem?_append_left (by simpa using hl1), List.getElem?_set_ne (Ne.symm hne)]
    simp [hl1]
  · show (_ ++ _)[a2]? = _
    rw [List.getElem?_append_left (by simpa using hl2)]
    simp [hl2]

/-- Witness for C3: node 3 encodes a packet of origin 1 with a packet of origin 6. -/
theorem encoding_header_bookkeeping_witness :
    ∃ s1 h, encoding ⟨⟨MsgType.ORIGINAL_TRANSMISSION, 0, 0, 0, 0, 0⟩, 8⟩
        ⟨SetSid (SimpleNetDevice 0 100) 3,
          [⟨[⟨MsgType.FORWARDING, 1, 0, 2, 0, 0⟩], 100, []⟩,
           ⟨[⟨MsgType.FORWARDING, 6, 0, 4, 0, 0⟩], 100, []⟩], [], [], []⟩
        (some 0) (some 1) = some (some 2, s1)
      ∧ ([⟨[⟨MsgType.FORWARDING, 1, 0, 2, 0, 0⟩], 100, []⟩,
           ⟨[⟨MsgType.FORWARDING, 6, 0, 4, 0, 0⟩], 100, []⟩] : List Packet)[2]? = none
      ∧ s1.heap.length = 2 + 1
      ∧ s1.heap[2]? = some { headers := [h], payload := 100, tags := [] }
      ∧ h.type = MsgType.NETWORK_CODING
      ∧ h.osid = 1
      ∧ h.osid2 = 6
      ∧ h.psid = 3
      ∧ s1.heap[0]? = some ⟨[], 100, []⟩
      ∧ s1.heap[1]? = some ⟨[], 100, []⟩
      ∧ s1.dev = SetSid (SimpleNetDevice 0 100) 3 ∧ s1.scheduled = [] ∧ s1.channelSent = [] :=
  encoding_header_bookkeeping ⟨⟨MsgType.ORIGINAL_TRANSMISSION, 0, 0, 0, 0, 0⟩, 8⟩
    ⟨SetSid (SimpleNetDevice 0 100) 3,
      [⟨[⟨MsgType.FORWARDING, 1, 0, 2, 0, 0⟩], 100, []⟩,
       ⟨[⟨MsgType.FORWARDING, 6, 0, 4, 0, 0⟩], 100, []⟩], [], [], []⟩
    0 1 ⟨[⟨MsgType.FORWARDING, 1, 0, 2, 0, 0⟩], 100, []⟩ ⟨[⟨MsgType.FORWARDING, 6, 0, 4, 0, 0⟩], 100, []⟩
    ⟨MsgType.FORWARDING, 1, 0, 2, 0, 0⟩ ⟨MsgType.FORWARDING, 6, 0, 4, 0, 0⟩ [] []
    (by decide) rfl rfl rfl rfl

/-! ## Decode -/

theorem decoded_eq (cfg : Config) (s : State) (heap1 : List Packet) (osid : Nat) :
    decoded cfg s heap1 osid =
      some (some heap1.length,
        { s with heap := heap1 ++
            [{ headers := [forwardingHeader cfg s.dev.m_sid osid], payload := 100, tags := [] }] }) := by
  have hget : (heap1 ++ [({ headers := [], payload := 100, tags := [] } : Packet)])[heap1.length]? =
      some { headers := [], payload := 100, tags := [] } := List.getElem?_concat_length _ _
  have hset : ∀ (x y : Packet), (heap1 ++ [x]).set heap1.length y = heap1 ++ [y] := by
    intro x y
    rw [List.set_append_right _ _ (le_refl _)]; simp
  simp only [decoded, Create, AddHeader, hget, hset, forwardingHeader]

/-- The result of `decoding` when at least one of the four pairings holds, computed. -/
theorem decoding_match_eq (cfg : Config) (s : State) (t0 t1 a : Nat) (pkA pkB pk : Packet)
    (ha hb hc : LwsnHeader) (tla tlb tlc : List LwsnHeader)
    (htx0 : s.dev.m_txPacket = some t0) (hA : s.heap[t0]? = some pkA)
    (hhA : pkA.headers = ha :: tla)
    (htx1 : s.dev.m_txPacket_1 = some t1) (hB : s.heap[t1]? = some pkB)
    (hhB : pkB.headers = hb :: tlb)
    (hp : s.heap[a]? = some pk) (hhp : pk.headers = hc :: tlc)
    (hmatch : ha.osid = hc.osid ∨ ha.osid = hc.osid2 ∨ hb.osid = hc.osid ∨ hb.osid = hc.osid2) :
    decoding cfg s (some a) =
      some (some s.heap.length,
        { s with heap := s.heap.set a { pk with headers := tlc } ++
            [{ headers := [forwardingHeader cfg s.dev.m_sid
                  (unmatchedId ha.osid hb.osid hc.osid hc.osid2)]
               payload := 100
               tags := [] }] }) := by
  have hlen : (s.heap.set a { pk with headers := tlc }).length = s.heap.length := by simp
  simp only [decoding, htx0, htx1, PeekHeader_eq hA hhA, PeekHeader_eq hB hhB,
    RemoveHeader_eq hp hhp, decoded_eq, hlen, unmatchedId]
  split_ifs with c1 c2 c3 c4
  · rfl
  · rfl
  · rfl
  · rfl
  · rcases hmatch with h | h | h | h
    · exact absurd h c1
    · exact absurd h c2
    · exact absurd h c3
    · exact absurd h c4

/-- C4: decode on a match.  When both `pending_tx` slots hold packets with origin ids
`a` (slot 0) and `b` (slot 1) and the coded packet carries `(o1, o2)`, and at least one of
`a = o1`, `a = o2`, `b = o1`, `b = o2` holds, `decoding` returns a fresh packet whose only
header has type `FORWARDING`, `psid` the id of the node and `osid` the unmatched id of the
first pairing that holds in that order. -/
theorem decoding_on_match (cfg : Config) (s : State) (t0 t1 a : Nat) (pkA pkB pk : Packet)
    (ha hb hc : LwsnHeader) (tla tlb tlc : List LwsnHeader)
    (htx0 : s.dev.m_txPacket = some t0) (hA : s.heap[t0]? = some pkA)
    (hhA : pkA.headers = ha :: tla)
    (htx1 : s.dev.m_txPacket_1 = some t1) (hB : s.heap[t1]? = some pkB)
    (hhB : pkB.headers = hb :: tlb)
    (hp : s.heap[a]? = some pk) (hhp : pk.headers = hc :: tlc)
    (hmatch : ha.osid = hc.osid ∨ ha.osid = hc.osid2 ∨ hb.osid = hc.osid ∨ hb.osid = hc.osid2) :
    ∃ q s1 h, decoding cfg s (some a) = some (q, s1)
      ∧ deref s.heap q = none
      ∧ deref s1.heap q = some { headers := [h], payload := 100, tags := [] }
      ∧ h.type = MsgType.FORWARDING
      ∧ h.psid = s.dev.m_sid
      ∧ h.osid = unmatchedId ha.osid hb.osid hc.osid hc.osid2
      ∧ s1.dev = s.dev ∧ s1.scheduled = s.scheduled ∧ s1.channelSent = s.channelSent := by
  have hlen : (s.heap.set a { pk with headers := tlc }).length = s.heap.length := by simp
  refine ⟨_, _, forwardingHeader cfg s.dev.m_sid (unmatchedId ha.osid hb.osid hc.osid hc.osid2),
    decoding_match_eq cfg s t0 t1 a pkA pkB pk ha hb hc tla tlb tlc htx0 hA hhA htx1 hB hhB
      hp hhp hmatch, ?_, ?_, rfl, rfl, rfl, rfl, rfl, rfl⟩
  · simp [deref]
  · show (_ ++ _)[s.heap.length]? = _
    rw [← hlen]; exact List.getElem?_concat_length _ _

/-- Witness for C4: node 2 remembers packets of origins 1 and 7 and receives the coded
pair `(6, 1)`; the second pairing `a = o2` is the first that holds and origin 6 is
recovered. -/
theorem decoding_on_match_witness :
    ∃ q s1 h, decoding ⟨⟨MsgType.ORIGINAL_TRANSMISSION, 0, 0, 0, 0, 0⟩, 8⟩
        ⟨{ SetSid (SimpleNetDevice 0 100) 2 with m_txPacket := some 0, m_txPacket_1 := some 1 },
          [⟨[⟨MsgType.FORWARDING, 1, 0, 2, 0, 0⟩], 100, []⟩,
           ⟨[⟨MsgType.FORWARDING, 7, 0, 2, 0, 0⟩], 100, []⟩,
           ⟨[⟨MsgType.NETWORK_CODING, 6, 1, 3, 0, 1⟩], 100, []⟩], [], [], []⟩
        (some 2) = some (q, s1)
      ∧ deref [⟨[⟨MsgType.FORWARDING, 1, 0, 2, 0, 0⟩], 100, []⟩,
           ⟨[⟨MsgType.FORWARDING, 7, 0, 2, 0, 0⟩], 100, []⟩,
           ⟨[⟨MsgType.NETWORK_CODING, 6, 1, 3, 0, 1⟩], 100, []⟩] q = none
      ∧ deref s1.heap q = some { headers := [h], payload := 100, tags := [] }
      ∧ h.type = MsgType.FORWARDING
      ∧ h.psid = 2
      ∧ h.osid = unmatchedId 1 7 6 1
      ∧ s1.dev = { SetSid (SimpleNetDevice 0 100) 2 with m_txPacket := some 0, m_txPacket_1 := some 1 }
      ∧ s1.scheduled = [] ∧ s1.channelSent = [] :=
  decoding_on_match ⟨⟨MsgType.ORIGINAL_TRANSMISSION, 0, 0, 0, 0, 0⟩, 8⟩
    ⟨{ SetSid (SimpleNetDevice 0 100) 2 with m_txPacket := some 0, m_txPacket_1 := some 1 },
      [⟨[⟨MsgType.FORWARDING, 1, 0, 2, 0, 0⟩], 100, []⟩,
       ⟨[⟨MsgType.FORWARDING, 7, 0, 2, 0, 0⟩], 100, []⟩,
       ⟨[⟨MsgType.NETWORK_CODING, 6, 1, 3, 0, 1⟩], 100, []⟩], [], [], []⟩
    0 1 2 ⟨[⟨MsgType.FORWARDING, 1, 0, 2, 0, 0⟩], 100, []⟩
    ⟨[⟨MsgType.FORWARDING, 7, 0, 2, 0, 0⟩], 100, []⟩
    ⟨[⟨MsgType.NETWORK_CODING, 6, 1, 3, 0, 1⟩], 100, []⟩
    ⟨MsgType.FORWARDING, 1, 0, 2, 0, 0⟩ ⟨MsgType.FORWARDING, 7, 0, 2, 0, 0⟩
    ⟨MsgType.NETWORK_CODING, 6, 1, 3, 0, 1⟩ [] [] []
    rfl rfl rfl rfl rfl rfl rfl rfl (by decide)

/-! ## Encode / decode round trip -/

/-- Counterexample to C5 as stated: node 3 encodes packets of origins 1 and 6; the decoding
node remembers two sent packets of origins 1 and 6.  The round trip yields origin id 6,
which is the origin id of `pending_tx[1]`. -/
theorem roundTrip_not_foreign :
    ∃ h hb, roundTrip sampleConfig
        ⟨sampleDevice 3,
          [samplePacket MsgType.FORWARDING 1 2, samplePacket MsgType.FORWARDING 6 4,
           samplePacket MsgType.FORWARDING 1 2, samplePacket MsgType.FORWARDING 6 2],
          [], [], []⟩
        { sampleDevice 2 with m_txPacket := some 2, m_txPacket_1 := some 3 }
        (some 0) (some 1) = some h
      ∧ PeekHeader
          [samplePacket MsgType.FORWARDING 1 2, samplePacket MsgType.FORWARDING 6 4,
           samplePacket MsgType.FORWARDING 1 2, samplePacket MsgType.FORWARDING 6 2]
          (some 3) = some hb
      ∧ h.osid = 6 ∧ hb.osid = 6 ∧ ¬ (h.osid ≠ hb.osid) :=
  ⟨_, _, rfl, rfl, rfl, rfl, by decide⟩

/-- C5 (amended): decode round trip.  For two distinct packets `p1`, `p2` that each carry a
header and a decoding node whose two `pending_tx` slots hold packets (other than `p1`,
`p2`) with origin ids `a` and `b`, if exactly one of `origin(p1)`, `origin(p2)` is among
`a`, `b`, then decoding the encoding of `p1`, `p2` yields a packet whose origin id is one of
`origin(p1)`, `origin(p2)` and is neither `a` nor `b`. -/
theorem roundTrip_foreign (cfg : Config) (s : State) (decoder : Device)
    (a1 a2 t0 t1 : Nat) (pk1 pk2 pkA pkB : Packet) (hd1 hd2 ha hb : LwsnHeader)
    (tl1 tl2 tla tlb : List LwsnHeader)
    (hne : a1 ≠ a2)
    (h1 : s.heap[a1]? = some pk1) (hh1 : pk1.headers = hd1 :: tl1)
    (h2 : s.heap[a2]? = some pk2) (hh2 : pk2.headers = hd2 :: tl2)
    (htx0 : decoder.m_txPacket = some t0) (hA : s.heap[t0]? = some pkA)
    (hhA : pkA.headers = ha :: tla) (h01 : t0 ≠ a1) (h02 : t0 ≠ a2)
    (htx1 : decoder.m_txPacket_1 = some t1) (hB : s.heap[t1]? = some pkB)
    (hhB : pkB.headers = hb :: tlb) (h11 : t1 ≠ a1) (h12 : t1 ≠ a2)
    (hone : ((hd1.osid = ha.osid ∨ hd1.osid = hb.osid) ∧
              ¬ (hd2.osid = ha.osid ∨ hd2.osid = hb.osid)) ∨
            (¬ (hd1.osid = ha.osid ∨ hd1.osid = hb.osid) ∧
              (hd2.osid = ha.osid ∨ hd2.osid = hb.osid))) :
    ∃ h, roundTrip cfg s decoder (some a1) (some a2) = some h
      ∧ (h.osid = hd1.osid ∨ h.osid = hd2.osid)
      ∧ h.osid ≠ ha.osid ∧ h.osid ≠ hb.osid := by
  have hl1 := lt_length_of_getElem? h1
  have hl2 := lt_length_of_getElem? h2
  have hlA := lt_length_of_getElem? hA
  have hlB := lt_length_of_getElem? hB
  have hlen : ((s.heap.set a1 { pk1 with headers := tl1 }).set a2
      { pk2 with headers := tl2 }).length = s.heap.length := by simp
  have hA1 : (((s.heap.set a1 { pk1 with headers := tl1 }).set a2 { pk2 with headers := tl2 }) ++
      [({ headers := [codedHeader cfg s.dev.m_sid hd1.osid hd2.osid]
          payload := 100
          tags := [] } : Packet)])[t0]? = some pkA := by
    rw [List.getElem?_append_left (by simpa using hlA), List.getElem?_set_ne (Ne.symm h02),
      List.getElem?_set_ne (Ne.symm h01)]
    exact hA
  have hB1 : (((s.heap.set a1 { pk1 with headers := tl1 }).set a2 { pk2 with headers := tl2 }) ++
      [({ headers := [codedHeader cfg s.dev.m_sid hd1.osid hd2.osid]
          payload := 100
          tags := [] } : Packet)])[t1]? = some pkB := by
    rw [List.getElem?_append_left (by simpa using hlB), List.getElem?_set_ne (Ne.symm h12),
      List.getElem?_set_ne (Ne.symm h11)]
    exact hB
  have hC1 : (((s.heap.set a1 { pk1 with headers := tl1 }).set a2 { pk2 with headers := tl2 }) ++
      [({ headers := [codedHeader cfg s.dev.m_sid hd1.osid hd2.osid]
          payload := 100
          tags := [] } : Packet)])[s.heap.length]? =
      some { headers := [codedHeader cfg s.dev.m_sid hd1.osid hd2.osid]
             payload := 100
             tags := [] } := by
    rw [← hlen]; exact List.getElem?_concat_length _ _
  have hmatch : ha.osid = (codedHeader cfg s.dev.m_sid hd1.osid hd2.osid).osid ∨
      ha.osid = (codedHeader cfg s.dev.m_sid hd1.osid hd2.osid).osid2 ∨
      hb.osid = (codedHeader cfg s.dev.m_sid hd1.osid hd2.osid).osid ∨
      hb.osid = (codedHeader cfg s.dev.m_sid hd1.osid hd2.osid).osid2 := by
    simp only [codedHeader]
    rcases hone with ⟨h | h, _⟩ | ⟨_, h | h⟩
    · exact Or.inl h.symm
    · exact Or.inr (Or.inr (Or.inl h.symm))
    · exact Or.inr (Or.inl h.symm)
    · exact Or.inr (Or.inr (Or.inr h.symm))
  have hdec := decoding_match_eq cfg
    { dev := decoder
      heap := ((s.heap.set a1 { pk1 with headers := tl1 }).set a2 { pk2 with headers := tl2 }) ++
        [{ headers := [codedHeader cfg s.dev.m_sid hd1.osid hd2.osid], payload := 100, tags := [] }]
      scheduled := s.scheduled
      channelSent := s.channelSent
      phyRxDrop := s.phyRxDrop }
    t0 t1 s.heap.length pkA pkB
    { headers := [codedHeader cfg s.dev.m_sid hd1.osid hd2.osid], payload := 100, tags := [] }
    ha hb (codedHeader cfg s.dev.m_sid hd1.osid hd2.osid) tla tlb []
    htx0 hA1 hhA htx1 hB1 hhB hC1 rfl hmatch
  refine ⟨forwardingHeader cfg decoder.m_sid (unmatchedId ha.osid hb.osid hd1.osid hd2.osid),
    ?_, ?_, ?_, ?_⟩
  · simp only [roundTrip, encoding_eq cfg s a1 a2 pk1 pk2 hd1 hd2 tl1 tl2 hne h1 hh1 h2 hh2]
    rw [hdec]
    simp only [PeekHeader, deref]
    rw [List.getElem?_append_right (by simp)]
    simp [codedHeader]
  · simp only [forwardingHeader, unmatchedId]
    split_ifs <;> simp
  · simp only [forwardingHeader, unmatchedId]
    split_ifs with c1 c2 c3 <;> rcases hone with ⟨h | h, hn⟩ | ⟨hn, h | h⟩ <;>
      simp only [not_or] at hn <;> omega
  · simp only [forwardingHeader, unmatchedId]
    split_ifs with c1 c2 c3 <;> rcases hone with ⟨h | h, hn⟩ | ⟨hn, h | h⟩ <;>
      simp only [not_or] at hn <;> omega

/-- Witness for the amended C5: node 3 encodes packets of origins 1 and 6; the decoding
node 2 remembers sent packets of origins 1 and 2, and recovers origin 6. -/
theorem roundTrip_foreign_witness :
    ∃ h, roundTrip sampleConfig
        ⟨sampleDevice 3,
          [samplePacket MsgType.FORWARDING 1 2, samplePacket MsgType.FORWARDING 6 4,
           samplePacket MsgType.FORWARDING 1 2, samplePacket MsgType.ORIGINAL_TRANSMISSION 2 2],
          [], [], []⟩
        { sampleDevice 2 with m_txPacket := some 2, m_txPacket_1 := some 3 }
        (some 0) (some 1) = some h
      ∧ (h.osid = 1 ∨ h.osid = 6)
      ∧ h.osid ≠ 1 ∧ h.osid ≠ 2 :=
  roundTrip_foreign sampleConfig
    ⟨sampleDevice 3,
      [samplePacket MsgType.FORWARDING 1 2, samplePacket MsgType.FORWARDING 6 4,
       samplePacket MsgType.FORWARDING 1 2, samplePacket MsgType.ORIGINAL_TRANSMISSION 2 2],
      [], [], []⟩
    { sampleDevice 2 with m_txPacket := some 2, m_txPacket_1 := some 3 }
    0 1 2 3
    (samplePacket MsgType.FORWARDING 1 2) (samplePacket MsgType.FORWARDING 6 4)
    (samplePacket MsgType.FORWARDING 1 2) (samplePacket MsgType.ORIGINAL_TRANSMISSION 2 2)
    ⟨MsgType.FORWARDING, 1, 0, 2, 0, 0⟩ ⟨MsgType.FORWARDING, 6, 0, 4, 0, 0⟩
    ⟨MsgType.FORWARDING, 1, 0, 2, 0, 0⟩ ⟨MsgType.ORIGINAL_TRANSMISSION, 2, 0, 2, 0, 0⟩
    [] [] [] []
    (by decide) rfl rfl rfl rfl rfl rfl rfl (by decide) (by decide) rfl rfl rfl
    (by decide) (by decide) (by decide)

/-! ## Decode fallback -/

/-- The result of `decoding` when none of the four pairings holds, computed: the pointer
passed in is returned, and the packet it addresses has lost its outermost header. -/
theorem decoding_mismatch_eq (cfg : Config) (s : State) (t0 t1 a : Nat) (pkA pkB pk : Packet)
    (ha hb hc : LwsnHeader) (tla tlb tlc : List LwsnHeader)
    (htx0 : s.dev.m_txPacket = some t0) (hA : s.heap[t0]? = some pkA)
    (hhA : pkA.headers = ha :: tla)
    (htx1 : s.dev.m_txPacket_1 = some t1) (hB : s.heap[t1]? = some pkB)
    (hhB : pkB.headers = hb :: tlb)
    (hp : s.heap[a]? = some pk) (hhp : pk.headers = hc :: tlc)
    (c1 : ha.osid ≠ hc.osid) (c2 : ha.osid ≠ hc.osid2)
    (c3 : hb.osid ≠ hc.osid) (c4 : hb.osid ≠ hc.osid2) :
    decoding cfg s (some a) =
      some (some a, { s with heap := s.heap.set a { pk with headers := tlc } }) := by
  simp only [decoding, htx0, htx1, PeekHeader_eq hA hhA, PeekHeader_eq hB hhB,
    RemoveHeader_eq hp hhp, if_neg c1, if_neg c2, if_neg c3, if_neg c4]

/-- C6 (the code at the failing input): node 2 remembers two sent packets of origin 2 and
receives the coded packet `(4, 5)`, which matches neither.  `decoding` returns the same
pointer, but the packet no longer carries its `NETWORK_CODING` header: no header is left
to read. -/
theorem decoding_mismatch_strips_header :
    ∃ s1, PeekHeader
          [samplePacket MsgType.ORIGINAL_TRANSMISSION 2 2,
           samplePacket MsgType.ORIGINAL_TRANSMISSION 2 2,
           ⟨[⟨MsgType.NETWORK_CODING, 4, 5, 3, 0, 1⟩], 100, []⟩]
          (some 2) = some ⟨MsgType.NETWORK_CODING, 4, 5, 3, 0, 1⟩
      ∧ decoding sampleConfig
          ⟨{ sampleDevice 2 with m_txPacket := some 0, m_txPacket_1 := some 1 },
            [samplePacket MsgType.ORIGINAL_TRANSMISSION 2 2,
             samplePacket MsgType.ORIGINAL_TRANSMISSION 2 2,
             ⟨[⟨MsgType.NETWORK_CODING, 4, 5, 3, 0, 1⟩], 100, []⟩], [], [], []⟩
          (some 2) = some (some 2, s1)
      ∧ deref s1.heap (some 2) = some ⟨[], 100, []⟩
      ∧ PeekHeader s1.heap (some 2) = none :=
  ⟨_, rfl, rfl, rfl, rfl⟩

/-! ## Coding check -/

/-- With a non-null flag pointer `SendCheck` never takes the branch guarded by
`nc_flag == false`: whatever the value of the flag, it runs `NetworkCoding` and then
clears the flag. -/
theorem SendCheck_some_eq (cfg : Config) (s : State) (now : Int) (a : Nat) (pk : Packet)
    (hd : LwsnHeader) (tl : List LwsnHeader) (f : FlagId)
    (hp : s.heap[a]? = some pk) (hhp : pk.headers = hd :: tl) :
    SendCheck cfg s now (some a) (some f) =
      (NetworkCoding cfg s now (some a)).map (fun s1 => setFlag s1 f false) := by
  simp only [SendCheck, PeekHeader_eq hp hhp]
  cases NetworkCoding cfg s now (some a) <;> simp

/-- C7 (the code at the failing input): node 2 with both coding flags false.
With both `pending_rx` slots empty, `SendCheck` on `nc_flag_1` for a packet of origin 3
yields no defined result (it encodes with a null partner) instead of one plain send; with a
stale packet of origin 5 in `pending_rx[0]` it produces a coded packet, clears that slot
and schedules two sends of the coded packet. -/
theorem SendCheck_flag_false_codes :
    (sampleDevice 2).nc_flag_1 = false
      ∧ SendCheck sampleConfig
          ⟨sampleDevice 2, [samplePacket MsgType.ORIGINAL_TRANSMISSION 3 3], [], [], []⟩
          2 (some 0) (some FlagId.nc_flag_1) = none
      ∧ SendCheck sampleConfig
          ⟨{ sampleDevice 2 with m_rxPacket := some 1 },
            [samplePacket MsgType.ORIGINAL_TRANSMISSION 3 3,
             samplePacket MsgType.FORWARDING 5 3], [], [], []⟩
          2 (some 0) (some FlagId.nc_flag_1) =
        some ⟨sampleDevice 2,
          [⟨[], 100, []⟩, ⟨[], 100, []⟩, ⟨[⟨MsgType.NETWORK_CODING, 3, 5, 2, 0, 1⟩], 100, []⟩],
          [⟨0, Callback.ChannelSend (some 2) 0 1 2⟩, ⟨0, Callback.ChannelSend (some 2) 0 3 2⟩],
          [], []⟩ :=
  ⟨rfl, rfl, rfl⟩

/-- Counterexample to C8 as stated: node 4 holds `nc_flag_2 = true` and a partner packet
(origin 2) in `pending_rx[1]`; `SendCheck` fires at time 5, where the clock selects
`pending_rx[0]`, which is empty.  No coded packet is produced and nothing is scheduled:
the call has no defined result. -/
theorem SendCheck_partner_in_other_slot :
    ({ sampleDevice 4 with nc_flag_2 := true, m_rxPacket_1 := some 1 } : Device).nc_flag_2 = true
      ∧ PeekHeader
          [samplePacket MsgType.FORWARDING 6 5, samplePacket MsgType.FORWARDING 2 3]
          (some 1) = some ⟨MsgType.FORWARDING, 2, 0, 3, 0, 0⟩
      ∧ SendCheck sampleConfig
          ⟨{ sampleDevice 4 with nc_flag_2 := true, m_rxPacket_1 := some 1 },
            [samplePacket MsgType.FORWARDING 6 5, samplePacket MsgType.FORWARDING 2 3],
            [], [], []⟩
          5 (some 0) (some FlagId.nc_flag_2) = none :=
  ⟨rfl, rfl, rfl⟩

/-- The result of `NetworkCoding` when the slot selected by the clock holds a packet
distinct from the current one, both carrying a header, computed. -/
theorem NetworkCoding_eq (cfg : Config) (s : State) (now : Int) (a b : Nat) (pk pkq : Packet)
    (hd hq : LwsnHeader) (tl tlq : List LwsnHeader)
    (hp : s.heap[a]? = some pk) (hhp : pk.headers = hd :: tl)
    (hslot : partnerSlot s.dev now = some b)
    (hb : s.heap[b]? = some pkq) (hhq : pkq.headers = hq :: tlq)
    (hne : a ≠ b) :
    NetworkCoding cfg s now (some a) =
      some (afterCoding cfg s now a b pk pkq hd hq tl tlq) := by
  unfold partnerSlot at hslot
  unfold NetworkCoding afterCoding clearPartner
  by_cases hc : now.tmod timeslot ≤ 6
  · rw [if_pos hc] at hslot
    simp only [if_pos hc, hslot,
      encoding_eq cfg s a b pk pkq hd hq tl tlq hne hp hhp hb hhq,
      SetRxPacket, scheduleNow, schedule, List.append_assoc, List.singleton_append]
  · rw [if_neg hc] at hslot
    simp only [if_neg hc, hslot,
      encoding_eq cfg s a b pk pkq hd hq tl tlq hne hp hhp hb hhq,
      SetRxPacket_1, scheduleNow, schedule, List.append_assoc, List.singleton_append]

/-- C8 (amended): coding check with a partner.  When `SendCheck` fires on flag `f` with
that flag true and the `pending_rx` slot selected by the clock (slot 0 when
`now mod 13 <= 6`, slot 1 otherwise) holds a partner packet distinct from the current
packet, both carrying a header, then exactly one new packet is created, with the header
`encoding` writes for the current packet and the partner; the selected slot is cleared;
exactly two events are scheduled, both immediate `ChannelSend`s of the new packet with
source the own address, the first to the left and the second to the right neighbour;
nothing is handed to the channel directly and the flag is reset. -/
theorem SendCheck_with_partner (cfg : Config) (s : State) (now : Int) (a b : Nat)
    (pk pkq : Packet) (hd hq : LwsnHeader) (tl tlq : List LwsnHeader) (f : FlagId)
    (hflag : getFlag s.dev f = true)
    (hp : s.heap[a]? = some pk) (hhp : pk.headers = hd :: tl)
    (hslot : partnerSlot s.dev now = some b)
    (hb : s.heap[b]? = some pkq) (hhq : pkq.headers = hq :: tlq)
    (hne : a ≠ b) :
    ∃ s1, SendCheck cfg s now (some a) (some f) = some s1
      ∧ s1.heap = ((s.heap.set a { pk with headers := tl }).set b { pkq with headers := tlq }) ++
            [{ headers := [codedHeader cfg s.dev.m_sid hd.osid hq.osid]
               payload := 100
               tags := [] }]
      ∧ (codedHeader cfg s.dev.m_sid hd.osid hq.osid).type = MsgType.NETWORK_CODING
      ∧ s1.scheduled = s.scheduled ++
            [{ delay := 0
               call := Callback.ChannelSend (some s.heap.length) 0 s.dev.l_address s.dev.m_address },
             { delay := 0
               call := Callback.ChannelSend (some s.heap.length) 0 s.dev.r_address s.dev.m_address }]
      ∧ some s.heap.length ≠ some a ∧ some s.heap.length ≠ some b
      ∧ s1.channelSent = s.channelSent
      ∧ partnerSlot s1.dev now = none
      ∧ s1.dev = (setFlag { s with dev := clearPartner s.dev now } f false).dev := by
  have hl1 := lt_length_of_getElem? hp
  have hl2 := lt_length_of_getElem? hb
  refine ⟨setFlag (afterCoding cfg s now a b pk pkq hd hq tl tlq) f false,
    ?_, ?_, rfl, ?_, ?_, ?_, ?_, ?_, ?_⟩
  · rw [SendCheck_some_eq cfg s now a pk hd tl f hp hhp,
      NetworkCoding_eq cfg s now a b pk pkq hd hq tl tlq hp hhp hslot hb hhq hne]
    rfl
  · cases f <;> rfl
  · cases f <;> rfl
  · intro h; injection h with h; omega
  · intro h; injection h with h; omega
  · cases f <;> rfl
  · cases f <;> simp only [setFlag, afterCoding, partnerSlot, clearPartner] <;>
      split_ifs <;> rfl
  · cases f <;> rfl

/-- Witness for the amended C8: node 4 at time 8 (the clock selects `pending_rx[1]`), with
`nc_flag_2` true, the current packet of origin 6 and the partner of origin 2. -/
theorem SendCheck_with_partner_witness :
    ∃ s1, SendCheck sampleConfig
        ⟨{ sampleDevice 4 with nc_flag_2 := true, m_rxPacket_1 := some 1 },
          [samplePacket MsgType.FORWARDING 6 5, samplePacket MsgType.FORWARDING 2 3],
          [], [], []⟩
        8 (some 0) (some FlagId.nc_flag_2) = some s1
      ∧ s1.heap = [⟨[], 100, []⟩, ⟨[], 100, []⟩,
          ⟨[codedHeader sampleConfig 4 6 2], 100, []⟩]
      ∧ (codedHeader sampleConfig 4 6 2).type = MsgType.NETWORK_CODING
      ∧ s1.scheduled = [] ++
          [⟨0, Callback.ChannelSend (some 2) 0 3 4⟩, ⟨0, Callback.ChannelSend (some 2) 0 5 4⟩]
      ∧ some 2 ≠ some 0 ∧ some 2 ≠ some 1
      ∧ s1.channelSent = []
      ∧ partnerSlot s1.dev 8 = none
      ∧ s1.dev = sampleDevice 4 :=
  SendCheck_with_partner sampleConfig
    ⟨{ sampleDevice 4 with nc_flag_2 := true, m_rxPacket_1 := some 1 },
      [samplePacket MsgType.FORWARDING 6 5, samplePacket MsgType.FORWARDING 2 3],
      [], [], []⟩
    8 0 1 (samplePacket MsgType.FORWARDING 6 5) (samplePacket MsgType.FORWARDING 2 3)
    ⟨MsgType.FORWARDING, 6, 0, 5, 0, 0⟩ ⟨MsgType.FORWARDING, 2, 0, 3, 0, 0⟩ [] []
    FlagId.nc_flag_2 rfl rfl rfl rfl rfl rfl (by decide)

/-- `encoding` touches only the packet heap. -/
theorem encoding_frame (cfg : Config) (s s1 : State) (p1 p2 q : PacketPtr)
    (h : encoding cfg s p1 p2 = some (q, s1)) :
    s1.dev = s.dev ∧ s1.scheduled = s.scheduled ∧ s1.channelSent = s.channelSent
      ∧ s1.phyRxDrop = s.phyRxDrop := by
  unfold encoding at h
  split at h
  · cases h
  · split at h
    · cases h
    · dsimp only at h
      split at h
      · cases h
      · injection h with h
        injection h with _ h
        subst h
        exact ⟨rfl, rfl, rfl, rfl⟩

/-- `NetworkCoding`, whenever it returns, leaves the device as it was except for the
partner slot selected by the clock, which is cleared. -/
theorem NetworkCoding_dev (cfg : Config) (s s1 : State) (now : Int) (p : PacketPtr)
    (h : NetworkCoding cfg s now p = some s1) :
    s1.dev = clearPartner s.dev now := by
  unfold NetworkCoding at h
  unfold clearPartner
  dsimp only at h
  split_ifs at h with hc
  · split at h
    · cases h
    · rename_i nc s2 henc
      injection h with h
      subst h
      have hf := (encoding_frame cfg s s2 p s.dev.m_rxPacket nc henc).1
      simp only [scheduleNow, schedule, SetRxPacket, hf, if_pos hc]
  · split at h
    · cases h
    · rename_i nc s2 henc
      injection h with h
      subst h
      have hf := (encoding_frame cfg s s2 p s.dev.m_rxPacket_1 nc henc).1
      simp only [scheduleNow, schedule, SetRxPacket_1, hf, if_neg hc]

/-- C9: coding check resets its flag.  Whenever `SendCheck` on the flag `f` returns,
whichever branch was taken, flag `f` is false and the other flag is unchanged. -/
theorem SendCheck_resets_flag (cfg : Config) (s s1 : State) (now : Int) (packet : PacketPtr)
    (f : FlagId) (h : SendCheck cfg s now packet (some f) = some s1) :
    getFlag s1.dev f = false ∧ ∀ g : FlagId, g ≠ f → getFlag s1.dev g = getFlag s.dev g := by
  unfold SendCheck at h
  split at h
  · cases h
  · simp only [reduceCtorEq, if_false] at h
    split at h
    · cases h
    · rename_i s2 hnc
      injection h with h
      subst h
      have hd := NetworkCoding_dev cfg s s2 now packet hnc
      have hf1 : s2.dev.nc_flag_1 = s.dev.nc_flag_1 := by
        rw [hd]; unfold clearPartner; split_ifs <;> rfl
      have hf2 : s2.dev.nc_flag_2 = s.dev.nc_flag_2 := by
        rw [hd]; unfold clearPartner; split_ifs <;> rfl
      refine ⟨by cases f <;> rfl, ?_⟩
      intro g hg
      cases f <;> cases g <;> first
        | exact absurd rfl hg
        | exact hf1
        | exact hf2

/-- Witness for C9: node 4 at time 8 with `nc_flag_1` and `nc_flag_2` both true; the check
on `nc_flag_2` returns, `nc_flag_2` is false afterwards and `nc_flag_1` is still true. -/
theorem SendCheck_resets_flag_witness :
    ∃ s1, SendCheck sampleConfig
        ⟨{ sampleDevice 4 with nc_flag_1 := true, nc_flag_2 := true, m_rxPacket_1 := some 1 },
          [samplePacket MsgType.FORWARDING 6 5, samplePacket MsgType.FORWARDING 2 3],
          [], [], []⟩
        8 (some 0) (some FlagId.nc_flag_2) = some s1
      ∧ getFlag s1.dev FlagId.nc_flag_2 = false
      ∧ getFlag s1.dev FlagId.nc_flag_1 = true :=
  ⟨_, rfl,
    (SendCheck_resets_flag sampleConfig
      ⟨{ sampleDevice 4 with nc_flag_1 := true, nc_flag_2 := true, m_rxPacket_1 := some 1 },
        [samplePacket MsgType.FORWARDING 6 5, samplePacket MsgType.FORWARDING 2 3],
        [], [], []⟩ _ 8 (some 0) FlagId.nc_flag_2 rfl).1,
    (SendCheck_resets_flag sampleConfig
      ⟨{ sampleDevice 4 with nc_flag_1 := true, nc_flag_2 := true, m_rxPacket_1 := some 1 },
        [samplePacket MsgType.FORWARDING 6 5, samplePacket MsgType.FORWARDING 2 3],
        [], [], []⟩ _ 8 (some 0) FlagId.nc_flag_2 rfl).2 FlagId.nc_flag_1 (by decide)⟩

/-! ## Transmit path: return value -/

/-- Counterexample to C10 as stated: node 1 holds one packet in its transmit queue and is
asked to send a 108-byte packet (MTU 65535).  `Send` returns `false` although the packet
is not oversize; the retry is scheduled 13 seconds later. -/
theorem Send_busy_returns_false :
    ∃ s1, GetSize sampleConfig (samplePacket MsgType.ORIGINAL_TRANSMISSION 1 1) = 108
      ∧ (sampleDevice 1).m_mtu = 65535
      ∧ Send sampleConfig
          ⟨{ sampleDevice 1 with m_queue := { items := [some 1], maxPackets := 100 } },
            [samplePacket MsgType.ORIGINAL_TRANSMISSION 1 1,
             samplePacket MsgType.ORIGINAL_TRANSMISSION 1 1], [], [], []⟩
          1 (some 0) 2 0 = some (false, s1)
      ∧ s1.scheduled = [⟨13, Callback.Send (some 0) 2 0⟩] :=
  ⟨_, rfl, rfl, rfl, rfl⟩

/-- The oversize path of `SendFrom`, computed. -/
theorem SendFrom_oversize_eq (cfg : Config) (s : State) (now : Int) (a : Nat) (pk : Packet)
    (source dest protocolNumber : Nat)
    (hp : s.heap[a]? = some pk)
    (hsize : s.dev.m_mtu < GetSize cfg pk) :
    SendFrom cfg s now (some a) source dest protocolNumber = some (false, s) := by
  simp only [SendFrom, deref, hp, gt_iff_lt, hsize, if_true]

/-- The busy path of `SendFrom`, computed. -/
theorem SendFrom_busy_eq (cfg : Config) (s : State) (now : Int) (a : Nat) (pk : Packet)
    (source dest protocolNumber : Nat)
    (hp : s.heap[a]? = some pk)
    (hsize : GetSize cfg pk ≤ s.dev.m_mtu)
    (hq : 0 < s.dev.m_queue.items.length) :
    SendFrom cfg s now (some a) source dest protocolNumber =
      some (false, schedule
        { s with
          heap := heapAfterSend s.heap a pk
            { m_src := source, m_dst := dest, m_protocolNumber := protocolNumber } }
        13 (Callback.Send (some a) dest protocolNumber)) := by
  have h1 := getElem?_append_of_getElem? hp [pk]
  have h2 := getElem?_set_of_getElem? h1
    { pk with tags := { m_src := source, m_dst := dest, m_protocolNumber := protocolNumber } :: pk.tags }
  simp only [SendFrom, deref, hp, Copy_eq hp, AddPacketTag_eq h1, gt_iff_lt,
    Nat.not_lt.2 hsize, if_false, hq, if_true, RemovePacketTag_eq h2, heapAfterSend]

/-- With an empty transmit queue and a packet within the MTU, `SendFrom` returns `true`
whenever it returns, and it returns if the queue has room or the device is attached to a
channel. -/
theorem SendFrom_idle_true (cfg : Config) (s : State) (now : Int) (a : Nat) (pk : Packet)
    (source dest protocolNumber : Nat)
    (hp : s.heap[a]? = some pk)
    (hsize : GetSize cfg pk ≤ s.dev.m_mtu)
    (hq : s.dev.m_queue.items = [])
    (hch : s.dev.m_channel = true ∨ 0 < s.dev.m_queue.maxPackets) :
    ∃ s1, SendFrom cfg s now (some a) source dest protocolNumber = some (true, s1) := by
  have h1 := getElem?_append_of_getElem? hp [pk]
  have h2 := getElem?_set_of_getElem? h1
    { pk with tags := { m_src := source, m_dst := dest, m_protocolNumber := protocolNumber } :: pk.tags }
  by_cases hcap : 0 < s.dev.m_queue.maxPackets
  · by_cases hrun : s.dev.TransmitCompleteEvent = false
    · exact ⟨_, SendFrom_accept_eq cfg s now a pk source dest protocolNumber hp hsize hq hcap hrun⟩
    · simp only [SendFrom, deref, hp, Copy_eq hp, AddPacketTag_eq h1, hq, gt_iff_lt,
        Nat.not_lt.2 hsize, List.length_nil, lt_irrefl, if_false, hcap, if_true,
        List.nil_append, List.length_singleton, hrun, and_false]
      exact ⟨_, rfl⟩
  · have hch1 : s.dev.m_channel = true := by
      rcases hch with h | h
      · exact h
      · exact absurd h hcap
    simp only [SendFrom, deref, hp, Copy_eq hp, AddPacketTag_eq h1, hq, gt_iff_lt,
      Nat.not_lt.2 hsize, List.length_nil, lt_irrefl, if_false, hcap, hch1, Bool.true_eq_false]
    exact ⟨_, rfl⟩

/-- C10 (amended): `Send` is `SendFrom` with the own address as source, and for a valid
packet on a device whose queue has room or which is attached to a channel, `SendFrom`
returns, and it returns `false` exactly when the packet is larger than the MTU or the
transmit queue already holds a packet.  In particular a packet of size equal to the MTU
sent on an empty queue succeeds; on the busy path of a packet within the MTU, the retry (a
`Send` of the same packet, destination and protocol) is scheduled 13 seconds later while
`false` is returned. -/
theorem SendFrom_false_iff (cfg : Config) (s : State) (now : Int) (a : Nat) (pk : Packet)
    (source dest protocolNumber : Nat)
    (hp : s.heap[a]? = some pk)
    (hch : s.dev.m_channel = true ∨ 0 < s.dev.m_queue.maxPackets) :
    Send cfg s now (some a) dest protocolNumber =
        SendFrom cfg s now (some a) s.dev.m_address dest protocolNumber
      ∧ ∃ r s1, SendFrom cfg s now (some a) source dest protocolNumber = some (r, s1)
        ∧ (r = false ↔ (s.dev.m_mtu < GetSize cfg pk ∨ 0 < s.dev.m_queue.items.length))
        ∧ (GetSize cfg pk = s.dev.m_mtu → s.dev.m_queue.items = [] → r = true)
        ∧ (GetSize cfg pk ≤ s.dev.m_mtu → 0 < s.dev.m_queue.items.length →
            s1.scheduled = s.scheduled ++
              [{ delay := 13, call := Callback.Send (some a) dest protocolNumber }]) := by
  refine ⟨rfl, ?_⟩
  by_cases hsize : s.dev.m_mtu < GetSize cfg pk
  · refine ⟨false, s, SendFrom_oversize_eq cfg s now a pk source dest protocolNumber hp hsize,
      ?_, ?_, ?_⟩
    · exact ⟨fun _ => Or.inl hsize, fun _ => rfl⟩
    · intro h; omega
    · intro h; omega
  · have hle : GetSize cfg pk ≤ s.dev.m_mtu := Nat.not_lt.1 hsize
    by_cases hq : 0 < s.dev.m_queue.items.length
    · refine ⟨false, _, SendFrom_busy_eq cfg s now a pk source dest protocolNumber hp hle hq,
        ?_, ?_, ?_⟩
      · exact ⟨fun _ => Or.inr hq, fun _ => rfl⟩
      · intro _ h0; rw [h0] at hq; exact absurd hq (by simp)
      · intro _ _; rfl
    · have hq0 : s.dev.m_queue.items = [] := by
        cases hi : s.dev.m_queue.items with
        | nil => rfl
        | cons x xs => rw [hi] at hq; exact absurd (Nat.succ_pos _) hq
      obtain ⟨s1, hs1⟩ := SendFrom_idle_true cfg s now a pk source dest protocolNumber hp hle hq0 hch
      refine ⟨true, s1, hs1, ?_, ?_, ?_⟩
      · constructor
        · intro h; cases h
        · intro h
          rcases h with h | h
          · exact absurd h hsize
          · exact absurd h hq
      · intro _ _; rfl
      · intro _ h; exact absurd h hq

/-- Witness for the amended C10: node 1 with an empty queue and MTU 108 sends a packet of
exactly 108 bytes. -/
theorem SendFrom_false_iff_witness :
    Send sampleConfig
        ⟨SetMtu (sampleDevice 1) 108, [samplePacket MsgType.ORIGINAL_TRANSMISSION 1 1], [], [], []⟩
        1 (some 0) 2 0 =
      SendFrom sampleConfig
        ⟨SetMtu (sampleDevice 1) 108, [samplePacket MsgType.ORIGINAL_TRANSMISSION 1 1], [], [], []⟩
        1 (some 0) 1 2 0
      ∧ ∃ r s1, SendFrom sampleConfig
          ⟨SetMtu (sampleDevice 1) 108, [samplePacket MsgType.ORIGINAL_TRANSMISSION 1 1], [], [], []⟩
          1 (some 0) 1 2 0 = some (r, s1)
        ∧ (r = false ↔ (108 < GetSize sampleConfig (samplePacket MsgType.ORIGINAL_TRANSMISSION 1 1)
            ∨ 0 < ([] : List PacketPtr).length))
        ∧ (GetSize sampleConfig (samplePacket MsgType.ORIGINAL_TRANSMISSION 1 1) = 108 →
            ([] : List PacketPtr) = [] → r = true)
        ∧ (GetSize sampleConfig (samplePacket MsgType.ORIGINAL_TRANSMISSION 1 1) ≤ 108 →
            0 < ([] : List PacketPtr).length →
            s1.scheduled = [] ++ [{ delay := 13, call := Callback.Send (some 0) 2 0 }]) :=
  SendFrom_false_iff sampleConfig
    ⟨SetMtu (sampleDevice 1) 108, [samplePacket MsgType.ORIGINAL_TRANSMISSION 1 1], [], [], []⟩
    1 0 (samplePacket MsgType.ORIGINAL_TRANSMISSION 1 1) 1 2 0 rfl (Or.inl rfl)

/-! ## Transmit path: oversize and busy -/

/-- C11: oversize send is atomic.  For a packet larger than the MTU, `SendFrom` and `Send`
return `false` and the state after the call is the state before it: device members
(transmit queue, `pending_rx` / `pending_tx` slots, coding flags), packet heap (so no tag is
attached), scheduled events and channel sends are all unchanged. -/
theorem SendFrom_oversize_atomic (cfg : Config) (s : State) (now : Int) (a : Nat) (pk : Packet)
    (source dest protocolNumber : Nat)
    (hp : s.heap[a]? = some pk)
    (hsize : s.dev.m_mtu < GetSize cfg pk) :
    SendFrom cfg s now (some a) source dest protocolNumber = some (false, s)
      ∧ Send cfg s now (some a) dest protocolNumber = some (false, s) :=
  ⟨SendFrom_oversize_eq cfg s now a pk source dest protocolNumber hp hsize,
    SendFrom_oversize_eq cfg s now a pk s.dev.m_address dest protocolNumber hp hsize⟩

/-- Witness for C11: node 1 with MTU 107 and a packet of 108 bytes. -/
theorem SendFrom_oversize_atomic_witness :
    SendFrom sampleConfig
        ⟨SetMtu (sampleDevice 1) 107, [samplePacket MsgType.ORIGINAL_TRANSMISSION 1 1], [], [], []⟩
        1 (some 0) 1 2 0 =
      some (false,
        ⟨SetMtu (sampleDevice 1) 107, [samplePacket MsgType.ORIGINAL_TRANSMISSION 1 1], [], [], []⟩)
      ∧ Send sampleConfig
        ⟨SetMtu (sampleDevice 1) 107, [samplePacket MsgType.ORIGINAL_TRANSMISSION 1 1], [], [], []⟩
        1 (some 0) 2 0 =
      some (false,
        ⟨SetMtu (sampleDevice 1) 107, [samplePacket MsgType.ORIGINAL_TRANSMISSION 1 1], [], [], []⟩) :=
  SendFrom_oversize_atomic sampleConfig
    ⟨SetMtu (sampleDevice 1) 107, [samplePacket MsgType.ORIGINAL_TRANSMISSION 1 1], [], [], []⟩
    1 0 (samplePacket MsgType.ORIGINAL_TRANSMISSION 1 1) 1 2 0 rfl (by decide)

/-- After the tag has been attached and removed again the packet at `a` is what it was. -/
theorem heapAfterSend_getElem? {heap : List Packet} {a : Nat} {pk : Packet}
    (hp : heap[a]? = some pk) (tag : SimpleTag) :
    (heapAfterSend heap a pk tag)[a]? = some pk := by
  have hl := lt_length_of_getElem? hp
  unfold heapAfterSend
  rw [List.getElem?_set_self (by simpa using Nat.lt_succ_of_lt hl)]
  rfl

/-- C12: busy retry.  For a packet within the MTU, when the transmit queue already holds a
packet, `SendFrom` changes no device member (the queue keeps its contents and count, the
`pending_tx` slots keep theirs), hands nothing to the channel, leaves the packet as it was,
and schedules exactly one event: a `Send` of the same packet, destination and protocol,
13 seconds later. -/
theorem SendFrom_busy_retry (cfg : Config) (s : State) (now : Int) (a : Nat) (pk : Packet)
    (source dest protocolNumber : Nat)
    (hp : s.heap[a]? = some pk)
    (hsize : GetSize cfg pk ≤ s.dev.m_mtu)
    (hq : 0 < s.dev.m_queue.items.length) :
    ∃ r s1, SendFrom cfg s now (some a) source dest protocolNumber = some (r, s1)
      ∧ s1.dev = s.dev
      ∧ s1.dev.m_queue.items = s.dev.m_queue.items
      ∧ s1.dev.m_txPacket = s.dev.m_txPacket ∧ s1.dev.m_txPacket_1 = s.dev.m_txPacket_1
      ∧ s1.channelSent = s.channelSent
      ∧ s1.scheduled = s.scheduled ++
          [{ delay := 13, call := Callback.Send (some a) dest protocolNumber }]
      ∧ s1.heap[a]? = some pk := by
  refine ⟨false, _, SendFrom_busy_eq cfg s now a pk source dest protocolNumber hp hsize hq,
    rfl, rfl, rfl, rfl, rfl, rfl, ?_⟩
  exact heapAfterSend_getElem? hp _

/-- Witness for C12: node 1 holds one packet in its transmit queue and is asked to send
another. -/
theorem SendFrom_busy_retry_witness :
    ∃ r s1, SendFrom sampleConfig
        ⟨{ sampleDevice 1 with m_queue := { items := [some 1], maxPackets := 100 } },
          [samplePacket MsgType.ORIGINAL_TRANSMISSION 1 1,
           samplePacket MsgType.ORIGINAL_TRANSMISSION 1 1], [], [], []⟩
        1 (some 0) 1 2 0 = some (r, s1)
      ∧ s1.dev = { sampleDevice 1 with m_queue := { items := [some 1], maxPackets := 100 } }
      ∧ s1.dev.m_queue.items = [some 1]
      ∧ s1.dev.m_txPacket = none ∧ s1.dev.m_txPacket_1 = none
      ∧ s1.channelSent = []
      ∧ s1.scheduled = [] ++ [{ delay := 13, call := Callback.Send (some 0) 2 0 }]
      ∧ s1.heap[0]? = some (samplePacket MsgType.ORIGINAL_TRANSMISSION 1 1) :=
  SendFrom_busy_retry sampleConfig
    ⟨{ sampleDevice 1 with m_queue := { items := [some 1], maxPackets := 100 } },
      [samplePacket MsgType.ORIGINAL_TRANSMISSION 1 1,
       samplePacket MsgType.ORIGINAL_TRANSMISSION 1 1], [], [], []⟩
    1 0 (samplePacket MsgType.ORIGINAL_TRANSMISSION 1 1) 1 2 0 rfl (by decide) (by decide)

/-! ## Receive: endpoints and corrupted packets -/

/-- C13: endpoint delivery.  At an endpoint node (id 1 or 6), for a packet addressed to the
own address, whatever its header (none is read), `Receive` returns and enters no relay
procedure: device members (pending slots, flags, queue), packet heap, scheduled events and
channel sends are unchanged; when the packet is not reported corrupt the whole state is
unchanged.  `SendSchedule` itself does nothing at an endpoint. -/
theorem Receive_endpoint (cfg : Config) (s : State) (packet : PacketPtr)
    (protocol toAddr fromAddr : Nat) (isCorrupt : Bool) (header : LwsnHeader)
    (hsid : s.dev.m_sid = 1 ∨ s.dev.m_sid = 6)
    (hto : toAddr = s.dev.m_address) :
    ∃ s1, Receive cfg s packet protocol toAddr fromAddr isCorrupt = some s1
      ∧ s1.dev = s.dev ∧ s1.heap = s.heap ∧ s1.scheduled = s.scheduled
      ∧ s1.channelSent = s.channelSent
      ∧ (¬ (s.dev.m_receiveErrorModel = true ∧ isCorrupt = true) → s1 = s)
      ∧ SendSchedule s packet toAddr fromAddr protocol header = s := by
  have hss : SendSchedule s packet toAddr fromAddr protocol header = s := by
    rcases hsid with h | h <;> simp [SendSchedule, h]
  by_cases hc : s.dev.m_receiveErrorModel = true ∧ isCorrupt = true
  · refine ⟨{ s with phyRxDrop := s.phyRxDrop ++ [packet] }, ?_, rfl, rfl, rfl, rfl, ?_, hss⟩
    · simp only [Receive, hc, and_self, if_true]
    · intro h; exact absurd hc h
  · refine ⟨s, ?_, rfl, rfl, rfl, rfl, fun _ => rfl, hss⟩
    simp only [Receive, hc, if_false, hto, hsid, if_true]

/-- Witness for C13: node 6 receives a coded packet addressed to it. -/
theorem Receive_endpoint_witness :
    ∃ s1, Receive sampleConfig
        ⟨sampleDevice 6, [⟨[⟨MsgType.NETWORK_CODING, 1, 6, 5, 0, 1⟩], 100, []⟩], [], [], []⟩
        (some 0) 0 6 5 false = some s1
      ∧ s1.dev = sampleDevice 6
      ∧ s1.heap = [⟨[⟨MsgType.NETWORK_CODING, 1, 6, 5, 0, 1⟩], 100, []⟩]
      ∧ s1.scheduled = []
      ∧ s1.channelSent = []
      ∧ (¬ ((sampleDevice 6).m_receiveErrorModel = true ∧ false = true) →
          s1 = ⟨sampleDevice 6, [⟨[⟨MsgType.NETWORK_CODING, 1, 6, 5, 0, 1⟩], 100, []⟩], [], [], []⟩)
      ∧ SendSchedule
          ⟨sampleDevice 6, [⟨[⟨MsgType.NETWORK_CODING, 1, 6, 5, 0, 1⟩], 100, []⟩], [], [], []⟩
          (some 0) 6 5 0 ⟨MsgType.NETWORK_CODING, 1, 6, 5, 0, 1⟩ =
        ⟨sampleDevice 6, [⟨[⟨MsgType.NETWORK_CODING, 1, 6, 5, 0, 1⟩], 100, []⟩], [], [], []⟩ :=
  Receive_endpoint sampleConfig
    ⟨sampleDevice 6, [⟨[⟨MsgType.NETWORK_CODING, 1, 6, 5, 0, 1⟩], 100, []⟩], [], [], []⟩
    (some 0) 0 6 5 false ⟨MsgType.NETWORK_CODING, 1, 6, 5, 0, 1⟩ (Or.inr rfl) rfl

/-- C14: corruption drop.  When an error model is installed and reports the packet
corrupt, `Receive` records exactly one drop notification for that packet and changes
nothing else, whatever the node, the destination address and the header: no header is
read, nothing is decoded, stored or scheduled. -/
theorem Receive_corrupt (cfg : Config) (s : State) (packet : PacketPtr)
    (protocol toAddr fromAddr : Nat)
    (hem : s.dev.m_receiveErrorModel = true) :
    Receive cfg s packet protocol toAddr fromAddr true =
      some { s with phyRxDrop := s.phyRxDrop ++ [packet] } := by
  simp only [Receive, hem, and_self, if_true]

/-- Witness for C14: node 3 with an error model receives a corrupt packet of origin 1. -/
theorem Receive_corrupt_witness :
    Receive sampleConfig
        ⟨{ sampleDevice 3 with m_receiveErrorModel := true },
          [samplePacket MsgType.FORWARDING 1 2], [], [], []⟩
        (some 0) 0 3 2 true =
      some ⟨{ sampleDevice 3 with m_receiveErrorModel := true },
          [samplePacket MsgType.FORWARDING 1 2], [], [], [some 0]⟩ :=
  Receive_corrupt sampleConfig
    ⟨{ sampleDevice 3 with m_receiveErrorModel := true },
      [samplePacket MsgType.FORWARDING 1 2], [], [], []⟩
    (some 0) 0 3 2 rfl

/-! ## Schedule-Relay table -/

theorem setFlag_dev_m_sid (s : State) (f : FlagId) (v : Bool) :
    (setFlag s f v).dev.m_sid = s.dev.m_sid := by
  cases f <;> rfl

/-- Counterexample to C15 as stated: node 3 with both flags false and both `pending_rx`
slots empty receives a packet of origin 1.  `SendSchedule` sets `nc_flag_2` and schedules
the check, but stores the packet in no `pending_rx` slot. -/
theorem SendSchedule_hold_without_store :
    (SendSchedule ⟨sampleDevice 3, [samplePacket MsgType.FORWARDING 1 2], [], [], []⟩
        (some 0) 3 2 0 ⟨MsgType.FORWARDING, 1, 0, 2, 0, 0⟩).dev.nc_flag_2 = true
      ∧ (sampleDevice 3).nc_flag_2 = false
      ∧ (SendSchedule ⟨sampleDevice 3, [samplePacket MsgType.FORWARDING 1 2], [], [], []⟩
        (some 0) 3 2 0 ⟨MsgType.FORWARDING, 1, 0, 2, 0, 0⟩).dev.m_rxPacket = none
      ∧ (SendSchedule ⟨sampleDevice 3, [samplePacket MsgType.FORWARDING 1 2], [], [], []⟩
        (some 0) 3 2 0 ⟨MsgType.FORWARDING, 1, 0, 2, 0, 0⟩).dev.m_rxPacket_1 = none
      ∧ (SendSchedule ⟨sampleDevice 3, [samplePacket MsgType.FORWARDING 1 2], [], [], []⟩
        (some 0) 3 2 0 ⟨MsgType.FORWARDING, 1, 0, 2, 0, 0⟩).scheduled =
          [⟨3, Callback.SendCheck (some 0) (some FlagId.nc_flag_2)⟩] :=
  ⟨rfl, rfl, rfl, rfl, rfl⟩

/-- C15 (amended): hold for coding.  Whenever `SendSchedule` sets the coding flag `f`
(run from the state in which `f` is cleared it leaves `f` true), then in every flag state
the node is an interior node, `f` is true afterwards, and exactly one event is scheduled:
a `SendCheck` of the received packet on flag `f` after 3 or 4 seconds.  The received packet
is carried by that event; it is stored in `pending_rx[1]` exactly for node 2 with origin 1
and node 4 with origin 5, and `pending_rx[0]` is never written. -/
theorem SendSchedule_hold (s : State) (p : PacketPtr) (toAddr fromAddr protocolNumber : Nat)
    (header : LwsnHeader) (f : FlagId)
    (hset : getFlag (SendSchedule (setFlag s f false) p toAddr fromAddr protocolNumber
        header).dev f = true) :
    ∃ d : Int, (d = 3 ∨ d = 4)
      ∧ (2 ≤ s.dev.m_sid ∧ s.dev.m_sid ≤ 5)
      ∧ (SendSchedule s p toAddr fromAddr protocolNumber header).scheduled =
          s.scheduled ++ [{ delay := d, call := Callback.SendCheck p (some f) }]
      ∧ getFlag (SendSchedule s p toAddr fromAddr protocolNumber header).dev f = true
      ∧ (SendSchedule s p toAddr fromAddr protocolNumber header).dev.m_rxPacket =
          s.dev.m_rxPacket
      ∧ (SendSchedule s p toAddr fromAddr protocolNumber header).dev.m_rxPacket_1 =
          (if (s.dev.m_sid = 2 ∧ header.osid = 1) ∨ (s.dev.m_sid = 4 ∧ header.osid = 5)
            then p else s.dev.m_rxPacket_1) := by
  have hsid : s.dev.m_sid = 1 ∨ s.dev.m_sid = 2 ∨ s.dev.m_sid = 3 ∨ s.dev.m_sid = 4 ∨
      s.dev.m_sid = 5 ∨ (s.dev.m_sid ≠ 1 ∧ s.dev.m_sid ≠ 2 ∧ s.dev.m_sid ≠ 3 ∧
        s.dev.m_sid ≠ 4 ∧ s.dev.m_sid ≠ 5) := by omega
  have hos : header.osid = 1 ∨ header.osid = 2 ∨ header.osid = 3 ∨ header.osid = 4 ∨
      header.osid = 5 ∨ (header.osid ≠ 1 ∧ header.osid ≠ 2 ∧ header.osid ≠ 3 ∧
        header.osid ≠ 4 ∧ header.osid ≠ 5) := by omega
  refine ⟨if (s.dev.m_sid = 3 ∧ header.osid = 4) ∨ s.dev.m_sid = 4 then 4 else 3, ?_, ?_⟩
  · split_ifs <;> simp
  rcases hsid with hs | hs | hs | hs | hs | hs <;>
    rcases hos with ho | ho | ho | ho | ho | ho <;>
    cases f <;>
    simp [SendSchedule, setFlag, getFlag, schedule, SetRxPacket, SetRxPacket_1, hs, ho]
      at hset ⊢ <;>
    split_ifs at hset

/-- Witness for the amended C15: node 4 with `nc_flag_1` already true receives a packet of
origin 5. -/
theorem SendSchedule_hold_witness :
    ∃ d : Int, (d = 3 ∨ d = 4)
      ∧ (2 ≤ 4 ∧ 4 ≤ 5)
      ∧ (SendSchedule
          ⟨{ sampleDevice 4 with nc_flag_1 := true }, [samplePacket MsgType.FORWARDING 5 5],
            [], [], []⟩
          (some 0) 4 5 0 ⟨MsgType.FORWARDING, 5, 0, 5, 0, 0⟩).scheduled =
          [] ++ [{ delay := d, call := Callback.SendCheck (some 0) (some FlagId.nc_flag_1) }]
      ∧ getFlag (SendSchedule
          ⟨{ sampleDevice 4 with nc_flag_1 := true }, [samplePacket MsgType.FORWARDING 5 5],
            [], [], []⟩
          (some 0) 4 5 0 ⟨MsgType.FORWARDING, 5, 0, 5, 0, 0⟩).dev FlagId.nc_flag_1 = true
      ∧ (SendSchedule
          ⟨{ sampleDevice 4 with nc_flag_1 := true }, [samplePacket MsgType.FORWARDING 5 5],
            [], [], []⟩
          (some 0) 4 5 0 ⟨MsgType.FORWARDING, 5, 0, 5, 0, 0⟩).dev.m_rxPacket = none
      ∧ (SendSchedule
          ⟨{ sampleDevice 4 with nc_flag_1 := true }, [samplePacket MsgType.FORWARDING 5 5],
            [], [], []⟩
          (some 0) 4 5 0 ⟨MsgType.FORWARDING, 5, 0, 5, 0, 0⟩).dev.m_rxPacket_1 =
          (if ((4 : Nat) = 2 ∧ (5 : Nat) = 1) ∨ ((4 : Nat) = 4 ∧ (5 : Nat) = 5)
            then some 0 else none) :=
  SendSchedule_hold
    ⟨{ sampleDevice 4 with nc_flag_1 := true }, [samplePacket MsgType.FORWARDING 5 5],
      [], [], []⟩
    (some 0) 4 5 0 ⟨MsgType.FORWARDING, 5, 0, 5, 0, 0⟩ FlagId.nc_flag_1 rfl

/-- Counterexample to C16 as stated: node 3 with `nc_flag_1` already true receives a packet
of origin 2, an entry whose scheduling depends on `nc_flag_1`.  Nothing is scheduled and
the flags are unchanged, but the packet is stored in both `pending_rx` slots. -/
theorem SendSchedule_coalesce_both_slots :
    (SendSchedule
        (setFlag ⟨sampleDevice 3, [samplePacket MsgType.FORWARDING 2 2], [], [], []⟩
          FlagId.nc_flag_1 false)
        (some 0) 3 2 0 ⟨MsgType.FORWARDING, 2, 0, 2, 0, 0⟩).scheduled ≠
      (SendSchedule
        (setFlag ⟨sampleDevice 3, [samplePacket MsgType.FORWARDING 2 2], [], [], []⟩
          FlagId.nc_flag_1 true)
        (some 0) 3 2 0 ⟨MsgType.FORWARDING, 2, 0, 2, 0, 0⟩).scheduled
      ∧ SendSchedule
          ⟨{ sampleDevice 3 with nc_flag_1 := true }, [samplePacket MsgType.FORWARDING 2 2],
            [], [], []⟩
          (some 0) 3 2 0 ⟨MsgType.FORWARDING, 2, 0, 2, 0, 0⟩ =
        ⟨{ sampleDevice 3 with nc_flag_1 := true, m_rxPacket := some 0, m_rxPacket_1 := some 0 },
          [samplePacket MsgType.FORWARDING 2 2], [], [], []⟩ :=
  ⟨by decide, rfl⟩

/-- C16 (amended): coalesce immediately.  For a table entry whose scheduling depends on the
flag `f` (run with `f` cleared and with `f` set, `SendSchedule` schedules differently), when
`f` is already true `SendSchedule` schedules nothing, hands nothing to the channel, leaves
both coding flags unchanged and stores the received packet in `pending_rx`: in both slots
at node 3 for origin 2 and at node 5 for origins other than 1..4, and in exactly one slot
(the other slot keeping its content) at every other such entry. -/
theorem SendSchedule_coalesce (s : State) (p : PacketPtr) (toAddr fromAddr protocolNumber : Nat)
    (header : LwsnHeader) (f : FlagId)
    (htest : (SendSchedule (setFlag s f false) p toAddr fromAddr protocolNumber
          header).scheduled ≠
        (SendSchedule (setFlag s f true) p toAddr fromAddr protocolNumber header).scheduled)
    (hflag : getFlag s.dev f = true) :
    (2 ≤ s.dev.m_sid ∧ s.dev.m_sid ≤ 5)
      ∧ (SendSchedule s p toAddr fromAddr protocolNumber header).scheduled = s.scheduled
      ∧ (SendSchedule s p toAddr fromAddr protocolNumber header).channelSent = s.channelSent
      ∧ (SendSchedule s p toAddr fromAddr protocolNumber header).heap = s.heap
      ∧ (SendSchedule s p toAddr fromAddr protocolNumber header).dev.nc_flag_1 = s.dev.nc_flag_1
      ∧ (SendSchedule s p toAddr fromAddr protocolNumber header).dev.nc_flag_2 = s.dev.nc_flag_2
      ∧ (if (s.dev.m_sid = 3 ∧ header.osid = 2) ∨
            (s.dev.m_sid = 5 ∧ header.osid ≠ 1 ∧ header.osid ≠ 2 ∧ header.osid ≠ 3 ∧
              header.osid ≠ 4)
          then (SendSchedule s p toAddr fromAddr protocolNumber header).dev.m_rxPacket = p
            ∧ (SendSchedule s p toAddr fromAddr protocolNumber header).dev.m_rxPacket_1 = p
          else ((SendSchedule s p toAddr fromAddr protocolNumber header).dev.m_rxPacket = p
              ∧ (SendSchedule s p toAddr fromAddr protocolNumber header).dev.m_rxPacket_1 =
                  s.dev.m_rxPacket_1)
            ∨ ((SendSchedule s p toAddr fromAddr protocolNumber header).dev.m_rxPacket_1 = p
              ∧ (SendSchedule s p toAddr fromAddr protocolNumber header).dev.m_rxPacket =
                  s.dev.m_rxPacket)) := by
  have hsid : s.dev.m_sid = 1 ∨ s.dev.m_sid = 2 ∨ s.dev.m_sid = 3 ∨ s.dev.m_sid = 4 ∨
      s.dev.m_sid = 5 ∨ (s.dev.m_sid ≠ 1 ∧ s.dev.m_sid ≠ 2 ∧ s.dev.m_sid ≠ 3 ∧
        s.dev.m_sid ≠ 4 ∧ s.dev.m_sid ≠ 5) := by omega
  have hos : header.osid = 1 ∨ header.osid = 2 ∨ header.osid = 3 ∨ header.osid = 4 ∨
      header.osid = 5 ∨ (header.osid ≠ 1 ∧ header.osid ≠ 2 ∧ header.osid ≠ 3 ∧
        header.osid ≠ 4 ∧ header.osid ≠ 5) := by omega
  rcases hsid with hs | hs | hs | hs | hs | hs <;>
    rcases hos with ho | ho | ho | ho | ho | ho <;>
    cases f <;>
    simp [SendSchedule, setFlag, getFlag, schedule, SetRxPacket, SetRxPacket_1, hs, ho]
      at htest hflag ⊢ <;>
    first
      | (split_ifs at htest <;> exact absurd rfl htest)
      | simp [hflag]

/-- Witness for the amended C16: node 4 with `nc_flag_1` already true receives a packet of
origin 3; it is stored in `pending_rx[0]` only. -/
theorem SendSchedule_coalesce_witness :
    (2 ≤ 4 ∧ 4 ≤ 5)
      ∧ (SendSchedule
          ⟨{ sampleDevice 4 with nc_flag_1 := true }, [samplePacket MsgType.FORWARDING 3 3],
            [], [], []⟩
          (some 0) 4 3 0 ⟨MsgType.FORWARDING, 3, 0, 3, 0, 0⟩).scheduled = []
      ∧ (SendSchedule
          ⟨{ sampleDevice 4 with nc_flag_1 := true }, [samplePacket MsgType.FORWARDING 3 3],
            [], [], []⟩
          (some 0) 4 3 0 ⟨MsgType.FORWARDING, 3, 0, 3, 0, 0⟩).channelSent = []
      ∧ (SendSchedule
          ⟨{ sampleDevice 4 with nc_flag_1 := true }, [samplePacket MsgType.FORWARDING 3 3],
            [], [], []⟩
          (some 0) 4 3 0 ⟨MsgType.FORWARDING, 3, 0, 3, 0, 0⟩).heap =
          [samplePacket MsgType.FORWARDING 3 3]
      ∧ (SendSchedule
          ⟨{ sampleDevice 4 with nc_flag_1 := true }, [samplePacket MsgType.FORWARDING 3 3],
            [], [], []⟩
          (some 0) 4 3 0 ⟨MsgType.FORWARDING, 3, 0, 3, 0, 0⟩).dev.nc_flag_1 = true
      ∧ (SendSchedule
          ⟨{ sampleDevice 4 with nc_flag_1 := true }, [samplePacket MsgType.FORWARDING 3 3],
            [], [], []⟩
          (some 0) 4 3 0 ⟨MsgType.FORWARDING, 3, 0, 3, 0, 0⟩).dev.nc_flag_2 = false
      ∧ (if ((4 : Nat) = 3 ∧ (3 : Nat) = 2) ∨
            ((4 : Nat) = 5 ∧ (3 : Nat) ≠ 1 ∧ (3 : Nat) ≠ 2 ∧ (3 : Nat) ≠ 3 ∧ (3 : Nat) ≠ 4)
          then (SendSchedule
              ⟨{ sampleDevice 4 with nc_flag_1 := true }, [samplePacket MsgType.FORWARDING 3 3],
                [], [], []⟩
              (some 0) 4 3 0 ⟨MsgType.FORWARDING, 3, 0, 3, 0, 0⟩).dev.m_rxPacket = some 0
            ∧ (SendSchedule
              ⟨{ sampleDevice 4 with nc_flag_1 := true }, [samplePacket MsgType.FORWARDING 3 3],
                [], [], []⟩
              (some 0) 4 3 0 ⟨MsgType.FORWARDING, 3, 0, 3, 0, 0⟩).dev.m_rxPacket_1 = some 0
          else ((SendSchedule
              ⟨{ sampleDevice 4 with nc_flag_1 := true }, [samplePacket MsgType.FORWARDING 3 3],
                [], [], []⟩
              (some 0) 4 3 0 ⟨MsgType.FORWARDING, 3, 0, 3, 0, 0⟩).dev.m_rxPacket = some 0
              ∧ (SendSchedule
              ⟨{ sampleDevice 4 with nc_flag_1 := true }, [samplePacket MsgType.FORWARDING 3 3],
                [], [], []⟩
              (some 0) 4 3 0 ⟨MsgType.FORWARDING, 3, 0, 3, 0, 0⟩).dev.m_rxPacket_1 = none)
            ∨ ((SendSchedule
              ⟨{ sampleDevice 4 with nc_flag_1 := true }, [samplePacket MsgType.FORWARDING 3 3],
                [], [], []⟩
              (some 0) 4 3 0 ⟨MsgType.FORWARDING, 3, 0, 3, 0, 0⟩).dev.m_rxPacket_1 = some 0
              ∧ (SendSchedule
              ⟨{ sampleDevice 4 with nc_flag_1 := true }, [samplePacket MsgType.FORWARDING 3 3],
                [], [], []⟩
              (some 0) 4 3 0 ⟨MsgType.FORWARDING, 3, 0, 3, 0, 0⟩).dev.m_rxPacket = none)) :=
  SendSchedule_coalesce
    ⟨{ sampleDevice 4 with nc_flag_1 := true }, [samplePacket MsgType.FORWARDING 3 3],
      [], [], []⟩
    (some 0) 4 3 0 ⟨MsgType.FORWARDING, 3, 0, 3, 0, 0⟩ FlagId.nc_flag_1 (by decide) rfl

/-- C17: direct forward goes away from the origin.  At an interior node `n` in 2..5, for an
origin `o` in 1..6 other than `n`, if `SendSchedule` schedules a `Forwarding`, then it
forwards the received packet, to the left neighbour when `o > n` and to the right neighbour
when `o < n`, after a delay in 1..6; the delay is the same in any other run at a node with
the same id for a packet with the same origin; no device member (coding flag, `pending_rx`
slot or other), packet or channel send is modified. -/
theorem SendSchedule_forward_away (s s2 : State) (p p2 q q2 : PacketPtr)
    (toAddr fromAddr protocolNumber dest dest2 : Nat) (header header2 : LwsnHeader) (d d2 : Int)
    (hn : 2 ≤ s.dev.m_sid ∧ s.dev.m_sid ≤ 5)
    (ho : 1 ≤ header.osid ∧ header.osid ≤ 6)
    (hne : header.osid ≠ s.dev.m_sid)
    (hfwd : (SendSchedule s p toAddr fromAddr protocolNumber header).scheduled =
      s.scheduled ++ [{ delay := d, call := Callback.Forwarding q dest }])
    (hsame : s2.dev.m_sid = s.dev.m_sid ∧ header2.osid = header.osid)
    (hfwd2 : (SendSchedule s2 p2 toAddr fromAddr protocolNumber header2).scheduled =
      s2.scheduled ++ [{ delay := d2, call := Callback.Forwarding q2 dest2 }]) :
    q = p
      ∧ (s.dev.m_sid < header.osid → dest = s.dev.l_address)
      ∧ (header.osid < s.dev.m_sid → dest = s.dev.r_address)
      ∧ 1 ≤ d ∧ d ≤ 6
      ∧ d2 = d
      ∧ (SendSchedule s p toAddr fromAddr protocolNumber header).dev = s.dev
      ∧ (SendSchedule s p toAddr fromAddr protocolNumber header).heap = s.heap
      ∧ (SendSchedule s p toAddr fromAddr protocolNumber header).channelSent = s.channelSent := by
  have hsid : s.dev.m_sid = 2 ∨ s.dev.m_sid = 3 ∨ s.dev.m_sid = 4 ∨ s.dev.m_sid = 5 := by omega
  have hos : header.osid = 1 ∨ header.osid = 2 ∨ header.osid = 3 ∨ header.osid = 4 ∨
      header.osid = 5 ∨ header.osid = 6 := by omega
  rcases hsid with hs | hs | hs | hs <;>
    rcases hos with hh | hh | hh | hh | hh | hh <;>
    simp [SendSchedule, setFlag, schedule, SetRxPacket, SetRxPacket_1, hs, hh,
      hsame.1.trans hs, hsame.2.trans hh] at hfwd hfwd2 hne ⊢ <;>
    first
      | (split_ifs at hfwd <;> simp at hfwd)
      | (obtain ⟨h1, h2, h3⟩ := hfwd
         obtain ⟨h4, _, _⟩ := hfwd2
         subst h1 h2 h3 h4
         simp)

/-- Witness for C17: node 5 receives a packet of origin 2 (forwarded to the right neighbour
after 4 seconds), compared with a second run at node 5 for another packet of origin 2. -/
theorem SendSchedule_forward_away_witness :
    (some 0 : PacketPtr) = some 0
      ∧ (5 < 2 → 6 = (sampleDevice 5).l_address)
      ∧ (2 < 5 → 6 = (sampleDevice 5).r_address)
      ∧ (1 : Int) ≤ 4 ∧ (4 : Int) ≤ 6
      ∧ (4 : Int) = 4
      ∧ (SendSchedule ⟨sampleDevice 5, [samplePacket MsgType.FORWARDING 2 4], [], [], []⟩
          (some 0) 5 4 0 ⟨MsgType.FORWARDING, 2, 0, 4, 0, 0⟩).dev = sampleDevice 5
      ∧ (SendSchedule ⟨sampleDevice 5, [samplePacket MsgType.FORWARDING 2 4], [], [], []⟩
          (some 0) 5 4 0 ⟨MsgType.FORWARDING, 2, 0, 4, 0, 0⟩).heap =
          [samplePacket MsgType.FORWARDING 2 4]
      ∧ (SendSchedule ⟨sampleDevice 5, [samplePacket MsgType.FORWARDING 2 4], [], [], []⟩
          (some 0) 5 4 0 ⟨MsgType.FORWARDING, 2, 0, 4, 0, 0⟩).channelSent = [] :=
  SendSchedule_forward_away
    ⟨sampleDevice 5, [samplePacket MsgType.FORWARDING 2 4], [], [], []⟩
    ⟨{ sampleDevice 5 with nc_flag_1 := true },
      [samplePacket MsgType.FORWARDING 2 4, samplePacket MsgType.ORIGINAL_TRANSMISSION 2 2],
      [], [], []⟩
    (some 0) (some 1) (some 0) (some 1) 5 4 0 6 6
    ⟨MsgType.FORWARDING, 2, 0, 4, 0, 0⟩ ⟨MsgType.ORIGINAL_TRANSMISSION, 2, 0, 2, 0, 0⟩ 4 4
    (by decide) (by decide) (by decide) rfl (by decide) rfl

/-! ## Plain relay -/

/-- The result of `Forwarding` on a packet that carries a header, computed. -/
theorem Forwarding_eq (cfg : Config) (s : State) (a : Nat) (pk : Packet) (hd : LwsnHeader)
    (tl : List LwsnHeader) (toAddr : Nat)
    (hp : s.heap[a]? = some pk) (hhp : pk.headers = hd :: tl) :
    Forwarding cfg s (some a) toAddr =
      some
        { s with
          heap := s.heap.set a
            { pk with headers := forwardingHeader cfg s.dev.m_sid hd.osid :: tl }
          scheduled := s.scheduled ++
            [{ delay := 0, call := Callback.ChannelSend (some a) 0 toAddr s.dev.m_address }] } := by
  have h1 := getElem?_set_of_getElem? hp { pk with headers := tl }
  simp only [Forwarding, RemoveHeader_eq hp hhp, AddHeader_eq h1, List.set_set, scheduleNow,
    schedule, forwardingHeader]

/-- C18: origin id is preserved through a plain relay.  For a packet that carries a header,
`Forwarding` replaces the outermost header by one with type `FORWARDING`, `psid` the id of
the node and `osid` the origin id of the removed header (headers below it and the payload
are kept), and schedules exactly one event: an immediate `ChannelSend` of that packet to
the given destination with the own address as source.  Nothing else changes. -/
theorem Forwarding_preserves_origin (cfg : Config) (s : State) (a : Nat) (pk : Packet)
    (hd : LwsnHeader) (tl : List LwsnHeader) (toAddr : Nat)
    (hp : s.heap[a]? = some pk) (hhp : pk.headers = hd :: tl) :
    ∃ s1 h, Forwarding cfg s (some a) toAddr = some s1
      ∧ s1.heap[a]? = some { pk with headers := h :: tl }
      ∧ h.type = MsgType.FORWARDING
      ∧ h.psid = s.dev.m_sid
      ∧ h.osid = hd.osid
      ∧ s1.scheduled = s.scheduled ++
          [{ delay := 0, call := Callback.ChannelSend (some a) 0 toAddr s.dev.m_address }]
      ∧ s1.channelSent = s.channelSent
      ∧ s1.dev = s.dev
      ∧ s1.heap.length = s.heap.length
      ∧ ∀ b : Nat, b ≠ a → s1.heap[b]? = s.heap[b]? := by
  refine ⟨_, forwardingHeader cfg s.dev.m_sid hd.osid,
    Forwarding_eq cfg s a pk hd tl toAddr hp hhp, ?_, rfl, rfl, rfl, rfl, rfl, rfl, ?_, ?_⟩
  · exact getElem?_set_of_getElem? hp _
  · simp
  · intro b hb
    exact List.getElem?_set_ne (Ne.symm hb)

/-- Witness for C18: node 4 forwards a packet of origin 1 to its right neighbour. -/
theorem Forwarding_preserves_origin_witness :
    ∃ s1 h, Forwarding sampleConfig
        ⟨sampleDevice 4, [samplePacket MsgType.ORIGINAL_TRANSMISSION 1 1], [], [], []⟩
        (some 0) 5 = some s1
      ∧ s1.heap[0]? = some { headers := [h], payload := 100, tags := [] }
      ∧ h.type = MsgType.FORWARDING
      ∧ h.psid = 4
      ∧ h.osid = 1
      ∧ s1.scheduled = [] ++ [{ delay := 0, call := Callback.ChannelSend (some 0) 0 5 4 }]
      ∧ s1.channelSent = []
      ∧ s1.dev = sampleDevice 4
      ∧ s1.heap.length = 1
      ∧ ∀ b : Nat, b ≠ 0 →
          s1.heap[b]? = [samplePacket MsgType.ORIGINAL_TRANSMISSION 1 1][b]? :=
  Forwarding_preserves_origin sampleConfig
    ⟨sampleDevice 4, [samplePacket MsgType.ORIGINAL_TRANSMISSION 1 1], [], [], []⟩
    0 (samplePacket MsgType.ORIGINAL_TRANSMISSION 1 1)
    ⟨MsgType.ORIGINAL_TRANSMISSION, 1, 0, 1, 0, 0⟩ [] 5 rfl rfl

/-! ## Remembered transmissions -/

/-- C19 (the code at the failing input): node 1, freshly constructed and wired, sends packet
0 at time 1 and packet 1 at time 14; both sends are accepted and scheduled.  Afterwards
`pending_tx[0]` holds the second packet and `pending_tx[1]` is still empty: the first
packet is not remembered. -/
theorem Send_twice_remembers_one :
    ∃ s1 s2, Send sampleConfig
        ⟨sampleDevice 1,
          [samplePacket MsgType.ORIGINAL_TRANSMISSION 1 1,
           samplePacket MsgType.ORIGINAL_TRANSMISSION 1 1], [], [], []⟩
        1 (some 0) 2 0 = some (true, s1)
      ∧ s1.scheduled = [⟨0, Callback.ChannelSend (some 0) 0 2 1⟩]
      ∧ Send sampleConfig s1 14 (some 1) 2 0 = some (true, s2)
      ∧ s2.scheduled =
          [⟨0, Callback.ChannelSend (some 0) 0 2 1⟩, ⟨0, Callback.ChannelSend (some 1) 0 2 1⟩]
      ∧ s2.dev.m_txPacket = some 1
      ∧ s2.dev.m_txPacket_1 = none :=
  ⟨_, _, rfl, rfl, rfl, rfl, rfl, rfl⟩

/-! ## Receive of the flow of origin 1 -/

/-- Counterexample to C20 as stated: node 2 with both coding flags false receives a
`FORWARDING` packet of origin 1 addressed to it.  `Receive` sets `nc_flag_1` and schedules a
`SendCheck`, not a `Forwarding`. -/
theorem Receive_origin1_node2_holds :
    (sampleDevice 2).nc_flag_1 = false ∧ (sampleDevice 2).nc_flag_2 = false
      ∧ Receive sampleConfig
          ⟨sampleDevice 2, [samplePacket MsgType.FORWARDING 1 1], [], [], []⟩
          (some 0) 0 2 1 false =
        some ⟨{ sampleDevice 2 with nc_flag_1 := true, m_rxPacket_1 := some 0 },
          [samplePacket MsgType.FORWARDING 1 1],
          [⟨3, Callback.SendCheck (some 0) (some FlagId.nc_flag_1)⟩], [], []⟩ :=
  ⟨rfl, rfl, rfl⟩

/-- C20 (amended): the flow of origin 1 at the interior nodes.  For an interior node 2..5
and a packet addressed to it, not reported corrupt, whose header has type
`ORIGINAL_TRANSMISSION` or `FORWARDING` and origin id 1, `Receive` returns, hands nothing to
the channel and leaves the packets as they are.  At nodes 4 and 5 it changes no device
member (both coding flags keep their value) and schedules exactly one event, a `Forwarding`
of the packet to the right neighbour after 3 seconds.  At nodes 2 and 3 it sets a coding
flag (`nc_flag_1` at node 2, `nc_flag_2` at node 3), leaves the other flag unchanged and
schedules exactly one event, a `SendCheck` of the packet on that flag after 3 seconds. -/
theorem Receive_origin1 (cfg : Config) (s : State) (a : Nat) (pk : Packet) (hd : LwsnHeader)
    (tl : List LwsnHeader) (protocol toAddr fromAddr : Nat) (isCorrupt : Bool)
    (hn : 2 ≤ s.dev.m_sid ∧ s.dev.m_sid ≤ 5)
    (hto : toAddr = s.dev.m_address)
    (hnc : ¬ (s.dev.m_receiveErrorModel = true ∧ isCorrupt = true))
    (hp : s.heap[a]? = some pk) (hhp : pk.headers = hd :: tl)
    (htype : hd.type = MsgType.ORIGINAL_TRANSMISSION ∨ hd.type = MsgType.FORWARDING)
    (hos : hd.osid = 1) :
    ∃ s1, Receive cfg s (some a) protocol toAddr fromAddr isCorrupt = some s1
      ∧ s1.heap = s.heap ∧ s1.channelSent = s.channelSent
      ∧ ((s.dev.m_sid = 4 ∨ s.dev.m_sid = 5) →
          s1.dev = s.dev
          ∧ s1.scheduled = s.scheduled ++
              [{ delay := 3, call := Callback.Forwarding (some a) s.dev.r_address }])
      ∧ (s.dev.m_sid = 2 →
          s1.dev.nc_flag_1 = true ∧ s1.dev.nc_flag_2 = s.dev.nc_flag_2
          ∧ s1.scheduled = s.scheduled ++
              [{ delay := 3, call := Callback.SendCheck (some a) (some FlagId.nc_flag_1) }])
      ∧ (s.dev.m_sid = 3 →
          s1.dev.nc_flag_2 = true ∧ s1.dev.nc_flag_1 = s.dev.nc_flag_1
          ∧ s1.scheduled = s.scheduled ++
              [{ delay := 3, call := Callback.SendCheck (some a) (some FlagId.nc_flag_2) }]) := by
  have hrecv : Receive cfg s (some a) protocol toAddr fromAddr isCorrupt =
      some (SendSchedule s (some a) toAddr fromAddr protocol hd) := by
    have h1 : ¬ (s.dev.m_sid = 1 ∨ s.dev.m_sid = 6) := by omega
    rcases htype with ht | ht <;>
      simp [Receive, hnc, hto, h1, PeekHeader_eq hp hhp, ht]
  have hsid : s.dev.m_sid = 2 ∨ s.dev.m_sid = 3 ∨ s.dev.m_sid = 4 ∨ s.dev.m_sid = 5 := by omega
  refine ⟨_, hrecv, ?_⟩
  rcases hsid with hs | hs | hs | hs <;>
    simp [SendSchedule, setFlag, schedule, SetRxPacket_1, hs, hos]

/-- Witness for the amended C20: node 4 receives an `ORIGINAL_TRANSMISSION` packet of
origin 1. -/
theorem Receive_origin1_witness :
    ∃ s1, Receive sampleConfig
        ⟨sampleDevice 4, [samplePacket MsgType.ORIGINAL_TRANSMISSION 1 1], [], [], []⟩
        (some 0) 0 4 3 false = some s1
      ∧ s1.heap = [samplePacket MsgType.ORIGINAL_TRANSMISSION 1 1] ∧ s1.channelSent = []
      ∧ (((4 : Nat) = 4 ∨ (4 : Nat) = 5) →
          s1.dev = sampleDevice 4
          ∧ s1.scheduled = [] ++ [{ delay := 3, call := Callback.Forwarding (some 0) 5 }])
      ∧ ((4 : Nat) = 2 →
          s1.dev.nc_flag_1 = true ∧ s1.dev.nc_flag_2 = false
          ∧ s1.scheduled = [] ++
              [{ delay := 3, call := Callback.SendCheck (some 0) (some FlagId.nc_flag_1) }])
      ∧ ((4 : Nat) = 3 →
          s1.dev.nc_flag_2 = true ∧ s1.dev.nc_flag_1 = false
          ∧ s1.scheduled = [] ++
              [{ delay := 3, call := Callback.SendCheck (some 0) (some FlagId.nc_flag_2) }]) :=
  Receive_origin1 sampleConfig
    ⟨sampleDevice 4, [samplePacket MsgType.ORIGINAL_TRANSMISSION 1 1], [], [], []⟩
    0 (samplePacket MsgType.ORIGINAL_TRANSMISSION 1 1)
    ⟨MsgType.ORIGINAL_TRANSMISSION, 1, 0, 1, 0, 0⟩ [] 0 4 3 false
    (by decide) rfl (by decide) rfl rfl (Or.inl rfl) rfl

/-! ## Frame lemmas -/

/-- `SendSchedule` writes only the coding flags, the `pending_rx` slots and the scheduler. -/
theorem SendSchedule_frame (s : State) (p : PacketPtr) (toAddr fromAddr protocolNumber : Nat)
    (header : LwsnHeader) :
    sameFrame s (SendSchedule s p toAddr fromAddr protocolNumber header) := by
  have hsid : s.dev.m_sid = 1 ∨ s.dev.m_sid = 2 ∨ s.dev.m_sid = 3 ∨ s.dev.m_sid = 4 ∨
      s.dev.m_sid = 5 ∨ (s.dev.m_sid ≠ 1 ∧ s.dev.m_sid ≠ 2 ∧ s.dev.m_sid ≠ 3 ∧
        s.dev.m_sid ≠ 4 ∧ s.dev.m_sid ≠ 5) := by omega
  have hos : header.osid = 1 ∨ header.osid = 2 ∨ header.osid = 3 ∨ header.osid = 4 ∨
      header.osid = 5 ∨ (header.osid ≠ 1 ∧ header.osid ≠ 2 ∧ header.osid ≠ 3 ∧
        header.osid ≠ 4 ∧ header.osid ≠ 5) := by omega
  rcases hsid with hs | hs | hs | hs | hs | hs <;>
    rcases hos with ho | ho | ho | ho | ho | ho <;>
    simp [SendSchedule, sameFrame, setFlag, schedule, SetRxPacket, SetRxPacket_1, hs, ho] <;>
    split_ifs <;> simp

/-- `decoding` touches only the packet heap. -/
theorem decoding_frame (cfg : Config) (s s1 : State) (p q : PacketPtr)
    (h : decoding cfg s p = some (q, s1)) :
    s1.dev = s.dev ∧ s1.scheduled = s.scheduled ∧ s1.channelSent = s.channelSent
      ∧ s1.phyRxDrop = s.phyRxDrop := by
  unfold decoding at h
  split at h
  · cases h
  · split at h
    · cases h
    · split at h
      · cases h
      · simp only [decoded_eq] at h
        split_ifs at h <;>
          (injection h with h
           injection h with _ h
           subst h
           exact ⟨rfl, rfl, rfl, rfl⟩)

theorem sameTx_of_dev_eq {s s1 : State} (h : s1.dev = s.dev) : sameTx s s1 := by
  unfold sameTx
  rw [h]
  exact ⟨rfl, rfl, rfl, rfl⟩

theorem sameTx_of_sameFrame {s s1 : State} (h : sameFrame s s1) : sameTx s s1 :=
  ⟨h.1, h.2.1, h.2.2.1, h.2.2.2.1⟩

theorem sameTx_trans {s s1 s2 : State} (h1 : sameTx s s1) (h2 : sameTx s1 s2) : sameTx s s2 :=
  ⟨h2.1.trans h1.1, h2.2.1.trans h1.2.1, h2.2.2.1.trans h1.2.2.1, h2.2.2.2.trans h1.2.2.2⟩

/-- `Receive`, whenever it returns, leaves the transmit-side members as they were. -/
theorem Receive_sameTx (cfg : Config) (s s1 : State) (packet : PacketPtr)
    (protocol toAddr fromAddr : Nat) (isCorrupt : Bool)
    (h : Receive cfg s packet protocol toAddr fromAddr isCorrupt = some s1) :
    sameTx s s1 := by
  unfold Receive at h
  split_ifs at h with hc hto hend
  · injection h with h; subst h; exact sameTx_of_dev_eq rfl
  · injection h with h; subst h; exact sameTx_of_dev_eq rfl
  · split at h
    · cases h
    · split_ifs at h
      · injection h with h; subst h
        exact sameTx_of_sameFrame (SendSchedule_frame _ _ _ _ _ _)
      · injection h with h; subst h
        exact sameTx_of_sameFrame (SendSchedule_frame _ _ _ _ _ _)
      · split at h
        · cases h
        · rename_i q s2 hdec
          split at h
          · cases h
          · injection h with h; subst h
            exact sameTx_trans
              (sameTx_of_dev_eq (decoding_frame cfg s s2 packet q hdec).1)
              (sameTx_of_sameFrame (SendSchedule_frame _ _ _ _ _ _))
      · injection h with h; subst h; exact sameTx_of_dev_eq rfl
  · injection h with h; subst h; exact sameTx_of_dev_eq rfl

/-- `SendCheck`, whenever it returns, was called with a non-null flag pointer and leaves
the transmit-side members as they were. -/
theorem SendCheck_sameTx (cfg : Config) (s s1 : State) (now : Int) (packet : PacketPtr)
    (nc_flag : FlagPtr) (h : SendCheck cfg s now packet nc_flag = some s1) :
    sameTx s s1 := by
  unfold SendCheck at h
  split at h
  · cases h
  · dsimp only at h
    split at h
    · cases h
    · rename_i s2 hres
      split at h
      · cases h
      · rename_i f
        injection h with h
        subst h
        simp only [reduceCtorEq, if_false] at hres
        have hd := NetworkCoding_dev cfg s s2 now packet hres
        have h2 : sameTx s s2 := by
          unfold sameTx
          rw [hd]
          unfold clearPartner
          split_ifs <;> exact ⟨rfl, rfl, rfl, rfl⟩
        exact sameTx_trans h2 (by cases f <;> exact ⟨rfl, rfl, rfl, rfl⟩)

/-- `Forwarding`, whenever it returns, leaves the device as it was. -/
theorem Forwarding_dev (cfg : Config) (s s1 : State) (p : PacketPtr) (toAddr : Nat)
    (h : Forwarding cfg s p toAddr = some s1) : s1.dev = s.dev := by
  unfold Forwarding at h
  split at h
  · cases h
  · dsimp only at h
    split at h
    · cases h
    · injection h with h; subst h; rfl

/-- `ChannelSend`, whenever it returns, leaves the device as it was. -/
theorem ChannelSend_dev (s s1 : State) (p : PacketPtr) (protocol toAddr fromAddr : Nat)
    (h : ChannelSend s p protocol toAddr fromAddr = some s1) : s1.dev = s.dev := by
  unfold ChannelSend at h
  split_ifs at h
  injection h with h; subst h; rfl

/-- `SendFrom`, whenever it returns: `pending_tx[1]` and the transmit-complete event are
unchanged; an empty queue with no transmission in flight is empty again afterwards; and
`pending_tx[0]` is either unchanged or, on a call that returned `true`, the packet sent. -/
theorem SendFrom_tx (cfg : Config) (s s1 : State) (now : Int) (p : PacketPtr)
    (source dest protocolNumber : Nat) (r : Bool)
    (h : SendFrom cfg s now p source dest protocolNumber = some (r, s1)) :
    s1.dev.m_txPacket_1 = s.dev.m_txPacket_1
      ∧ s1.dev.TransmitCompleteEvent = s.dev.TransmitCompleteEvent
      ∧ (s.dev.m_queue.items = [] → s.dev.TransmitCompleteEvent = false →
          s1.dev.m_queue.items = [])
      ∧ (s1.dev.m_txPacket = s.dev.m_txPacket ∨ (r = true ∧ s1.dev.m_txPacket = p)) := by
  unfold SendFrom at h
  cases hd : deref s.heap p with
  | none => rw [hd] at h; cases h
  | some pk =>
    rw [hd] at h
    dsimp only at h
    by_cases hsz : GetSize cfg pk > s.dev.m_mtu
    · rw [if_pos hsz] at h
      injection h with h; injection h with _ h; subst h
      exact ⟨rfl, rfl, fun h _ => h, Or.inl rfl⟩
    · rw [if_neg hsz] at h
      cases hc : Copy s.heap p with
      | none => rw [hc] at h; cases h
      | some cp =>
        obtain ⟨packet, heap1⟩ := cp
        rw [hc] at h
        dsimp only at h
        cases ha : AddPacketTag heap1 p
            { m_src := source, m_dst := dest, m_protocolNumber := protocolNumber } with
        | none => rw [ha] at h; cases h
        | some heap2 =>
          rw [ha] at h
          dsimp only at h
          by_cases hq : s.dev.m_queue.items.length > 0
          · rw [if_pos hq] at h
            cases hr : RemovePacketTag heap2 p with
            | none => rw [hr] at h; cases h
            | some heap3 =>
              rw [hr] at h
              injection h with h; injection h with _ h; subst h
              exact ⟨rfl, rfl, fun h _ => h, Or.inl rfl⟩
          · rw [if_neg hq] at h
            have hlen : s.dev.m_queue.items = [] := by
              cases hi : s.dev.m_queue.items with
              | nil => rfl
              | cons x xs => rw [hi] at hq; exact absurd (Nat.succ_pos _) hq
            by_cases hcap : s.dev.m_queue.items.length < s.dev.m_queue.maxPackets
            · rw [if_pos hcap] at h
              by_cases hacc : (s.dev.m_queue.items ++ [p]).length = 1 ∧
                  s.dev.TransmitCompleteEvent = false
              · rw [if_pos hacc] at h
                rw [hlen] at h
                simp only [List.nil_append] at h
                cases hr : RemovePacketTag heap2 p with
                | none => rw [hr] at h; cases h
                | some heap3 =>
                  rw [hr] at h
                  injection h with h; injection h with hrv h; subst h
                  exact ⟨rfl, rfl, fun _ _ => rfl, Or.inr ⟨hrv.symm, rfl⟩⟩
              · rw [if_neg hacc] at h
                injection h with h; injection h with _ h; subst h
                refine ⟨rfl, rfl, ?_, Or.inl rfl⟩
                intro h0 hrun
                exfalso
                apply hacc
                rw [h0]
                exact ⟨rfl, hrun⟩
            · rw [if_neg hcap] at h
              by_cases hch : s.dev.m_channel = false
              · rw [if_pos hch] at h; cases h
              · rw [if_neg hch] at h
                injection h with h; injection h with _ h; subst h
                exact ⟨rfl, rfl, fun h _ => h, Or.inl rfl⟩

/-- One operation, whenever it returns: `pending_tx[1]` and the transmit-complete event are
unchanged; an empty queue with no transmission in flight is empty again afterwards; and
`pending_tx[0]` is unchanged unless the operation is a send, which stores the packet sent. -/
theorem step_tx (cfg : Config) (s s1 : State) (op : Op) (h : step cfg s op = some s1) :
    s1.dev.m_txPacket_1 = s.dev.m_txPacket_1
      ∧ s1.dev.TransmitCompleteEvent = s.dev.TransmitCompleteEvent
      ∧ (s.dev.m_queue.items = [] → s.dev.TransmitCompleteEvent = false →
          s1.dev.m_queue.items = [])
      ∧ (s1.dev.m_txPacket = s.dev.m_txPacket ∨
          ∃ now p source dest protocolNumber,
            (op = Op.SendFrom now p source dest protocolNumber ∨
              op = Op.Send now p dest protocolNumber) ∧ s1.dev.m_txPacket = p) := by
  have of_sameTx : sameTx s s1 →
      s1.dev.m_txPacket_1 = s.dev.m_txPacket_1
      ∧ s1.dev.TransmitCompleteEvent = s.dev.TransmitCompleteEvent
      ∧ (s.dev.m_queue.items = [] → s.dev.TransmitCompleteEvent = false →
          s1.dev.m_queue.items = [])
      ∧ (s1.dev.m_txPacket = s.dev.m_txPacket ∨
          ∃ now p source dest protocolNumber,
            (op = Op.SendFrom now p source dest protocolNumber ∨
              op = Op.Send now p dest protocolNumber) ∧ s1.dev.m_txPacket = p) := by
    intro hs
    exact ⟨hs.2.1, hs.2.2.2, fun h0 _ => by rw [hs.2.2.1]; exact h0, Or.inl hs.1⟩
  cases op with
  | Send now packet dest protocolNumber =>
    simp only [step, Send, Option.map_eq_some', Prod.exists, exists_eq_right] at h
    obtain ⟨r, hr⟩ := h
    obtain ⟨h1, h2, h3, h4⟩ := SendFrom_tx cfg s s1 now packet _ dest protocolNumber r hr
    refine ⟨h1, h2, h3, ?_⟩
    rcases h4 with h4 | ⟨_, h4⟩
    · exact Or.inl h4
    · exact Or.inr ⟨now, packet, 0, dest, protocolNumber, Or.inr rfl, h4⟩
  | SendFrom now p source dest protocolNumber =>
    simp only [step, Option.map_eq_some', Prod.exists, exists_eq_right] at h
    obtain ⟨r, hr⟩ := h
    obtain ⟨h1, h2, h3, h4⟩ := SendFrom_tx cfg s s1 now p source dest protocolNumber r hr
    refine ⟨h1, h2, h3, ?_⟩
    rcases h4 with h4 | ⟨_, h4⟩
    · exact Or.inl h4
    · exact Or.inr ⟨now, p, source, dest, protocolNumber, Or.inl rfl, h4⟩
  | Receive packet protocol toAddr fromAddr isCorrupt =>
    exact of_sameTx (Receive_sameTx cfg s s1 packet protocol toAddr fromAddr isCorrupt h)
  | SendCheck now packet nc_flag =>
    exact of_sameTx (SendCheck_sameTx cfg s s1 now packet nc_flag h)
  | Forwarding p toAddr =>
    exact of_sameTx (sameTx_of_dev_eq (Forwarding_dev cfg s s1 p toAddr h))
  | ChannelSend p protocol toAddr fromAddr =>
    exact of_sameTx (sameTx_of_dev_eq (ChannelSend_dev s s1 p protocol toAddr fromAddr h))
  | SetSleep =>
    simp only [step, SetSleep, Option.some.injEq] at h
    subst h
    refine ⟨?_, ?_, ?_, Or.inl ?_⟩
    · split_ifs <;> rfl
    · split_ifs <;> rfl
    · intro h0 _
      split_ifs with hq
      · rw [h0] at hq; exact absurd hq (by simp)
      · exact h0
    · split_ifs <;> rfl

/-! ## Reachable states -/

/-- C22: the transmit queue is empty between operations.  Starting from a state with an
empty transmit queue and no transmit-complete event pending, in every state reached by
`Send`, `SendFrom`, `Receive`, `SendCheck`, `Forwarding`, `ChannelSend` and `SetSleep` steps
the transmit queue holds zero packets and no transmit-complete event is pending; so the
guard `GetNPackets () > 0` of the busy-retry branch of `SendFrom` is false there. -/
theorem queue_empty_between_operations (cfg : Config) (s0 s : State)
    (h0q : s0.dev.m_queue.items = [])
    (h0e : s0.dev.TransmitCompleteEvent = false)
    (hr : Reachable cfg s0 s) :
    s.dev.m_queue.items = []
      ∧ s.dev.m_queue.items.length = 0
      ∧ s.dev.TransmitCompleteEvent = false
      ∧ ¬ (s.dev.m_queue.items.length > 0) := by
  have key : s.dev.m_queue.items = [] ∧ s.dev.TransmitCompleteEvent = false := by
    induction hr with
    | init => exact ⟨h0q, h0e⟩
    | next t t1 op _ hstep ih =>
      obtain ⟨_, h2, h3, _⟩ := step_tx cfg t t1 op hstep
      exact ⟨h3 ih.1 ih.2, h2.trans ih.2⟩
  refine ⟨key.1, ?_, key.2, ?_⟩
  · rw [key.1]; rfl
  · rw [key.1]; simp

/-- Witness for C22: node 1, constructed and wired, after an accepted `Send`. -/
theorem queue_empty_between_operations_witness :
    ∃ s, Reachable sampleConfig
        ⟨sampleDevice 1, [samplePacket MsgType.ORIGINAL_TRANSMISSION 1 1], [], [], []⟩ s
      ∧ s.scheduled = [⟨0, Callback.ChannelSend (some 0) 0 2 1⟩]
      ∧ s.dev.m_queue.items = []
      ∧ s.dev.m_queue.items.length = 0
      ∧ s.dev.TransmitCompleteEvent = false
      ∧ ¬ (s.dev.m_queue.items.length > 0) :=
  ⟨_, Reachable.next _ _ (Op.Send 1 (some 0) 2 0) Reachable.init rfl, rfl,
    queue_empty_between_operations sampleConfig
      ⟨sampleDevice 1, [samplePacket MsgType.ORIGINAL_TRANSMISSION 1 1], [], [], []⟩ _
      rfl rfl (Reachable.next _ _ (Op.Send 1 (some 0) 2 0) Reachable.init rfl)⟩

/-- With `pending_tx[1]` empty, `decoding` has no defined result: it dereferences
`GetTxPacket_1 ()`. -/
theorem decoding_none_of_txPacket_1_none (cfg : Config) (s : State) (p : PacketPtr)
    (h : s.dev.m_txPacket_1 = none) : decoding cfg s p = none := by
  unfold decoding
  rw [h]
  cases PeekHeader s.heap s.dev.m_txPacket <;> rfl

/-- C23: `pending_tx[1]` is never written.  In every state `s` reached from `s0` by
operations of the device, `pending_tx[1]` is what it was in `s0`; each operation
(`Send`, `SendFrom`, `Receive`, `SendCheck`, `Forwarding`, `ChannelSend`, `SetSleep`) and each
of `SendSchedule`, `NetworkCoding`, `encoding`, `decoding` leaves it unchanged, and
`pending_tx[0]` changes only in a send, which stores the packet sent.  The constructor
leaves `pending_tx[1]` empty, so from such a state it stays empty and `decoding`, which
needs both slots occupied, has no defined result in any reachable state. -/
theorem pending_tx_1_never_written (cfg : Config) (s0 s : State)
    (hr : Reachable cfg s0 s) :
    s.dev.m_txPacket_1 = s0.dev.m_txPacket_1
      ∧ (∀ sid0 maxPackets : Nat, (SimpleNetDevice sid0 maxPackets).m_txPacket_1 = none)
      ∧ (s0.dev.m_txPacket_1 = none → ∀ p : PacketPtr, decoding cfg s p = none)
      ∧ (∀ (op : Op) (s1 : State), step cfg s op = some s1 →
          s1.dev.m_txPacket_1 = s.dev.m_txPacket_1
          ∧ (s1.dev.m_txPacket = s.dev.m_txPacket ∨
              ∃ now p source dest protocolNumber,
                (op = Op.SendFrom now p source dest protocolNumber ∨
                  op = Op.Send now p dest protocolNumber) ∧ s1.dev.m_txPacket = p))
      ∧ (∀ (p : PacketPtr) (toAddr fromAddr protocolNumber : Nat) (header : LwsnHeader),
          (SendSchedule s p toAddr fromAddr protocolNumber header).dev.m_txPacket_1 =
            s.dev.m_txPacket_1)
      ∧ (∀ (now : Int) (p : PacketPtr) (s1 : State), NetworkCoding cfg s now p = some s1 →
          s1.dev.m_txPacket_1 = s.dev.m_txPacket_1)
      ∧ (∀ (p1 p2 q : PacketPtr) (s1 : State), encoding cfg s p1 p2 = some (q, s1) →
          s1.dev.m_txPacket_1 = s.dev.m_txPacket_1)
      ∧ (∀ (p q : PacketPtr) (s1 : State), decoding cfg s p = some (q, s1) →
          s1.dev.m_txPacket_1 = s.dev.m_txPacket_1) := by
  have key : s.dev.m_txPacket_1 = s0.dev.m_txPacket_1 := by
    induction hr with
    | init => rfl
    | next t t1 op _ hstep ih => exact (step_tx cfg t t1 op hstep).1.trans ih
  refine ⟨key, fun _ _ => rfl, ?_, ?_, ?_, ?_, ?_, ?_⟩
  · intro h0 p
    exact decoding_none_of_txPacket_1_none cfg s p (key.trans h0)
  · intro op s1 hstep
    obtain ⟨h1, _, _, h4⟩ := step_tx cfg s s1 op hstep
    exact ⟨h1, h4⟩
  · intro p toAddr fromAddr protocolNumber header
    exact (SendSchedule_frame s p toAddr fromAddr protocolNumber header).2.1
  · intro now p s1 h
    rw [NetworkCoding_dev cfg s s1 now p h]
    unfold clearPartner
    split_ifs <;> rfl
  · intro p1 p2 q s1 h
    rw [(encoding_frame cfg s s1 p1 p2 q h).1]
  · intro p q s1 h
    rw [(decoding_frame cfg s s1 p q h).1]

/-- Witness for C23: node 1, constructed and wired, after two accepted `Send`s. -/
theorem pending_tx_1_never_written_witness :
    ∃ s, Reachable sampleConfig
        ⟨sampleDevice 1,
          [samplePacket MsgType.ORIGINAL_TRANSMISSION 1 1,
           samplePacket MsgType.ORIGINAL_TRANSMISSION 1 1], [], [], []⟩ s
      ∧ s.dev.m_txPacket = some 1
      ∧ s.dev.m_txPacket_1 = (sampleDevice 1).m_txPacket_1 :=
  ⟨_, Reachable.next _ _ (Op.Send 14 (some 1) 2 0)
        (Reachable.next _ _ (Op.Send 1 (some 0) 2 0) Reachable.init rfl) rfl, rfl,
    (pending_tx_1_never_written sampleConfig
      ⟨sampleDevice 1,
        [samplePacket MsgType.ORIGINAL_TRANSMISSION 1 1,
         samplePacket MsgType.ORIGINAL_TRANSMISSION 1 1], [], [], []⟩ _
      (Reachable.next _ _ (Op.Send 14 (some 1) 2 0)
        (Reachable.next _ _ (Op.Send 1 (some 0) 2 0) Reachable.init rfl) rfl)).1⟩

/-! ## Partner availability -/

/-- C21 (the code at the failing input): node 3, constructed and wired, receives at time 1
a `FORWARDING` packet of origin 1 addressed to it.  `Receive` sets `nc_flag_2` and schedules
a `SendCheck` 3 seconds later without storing anything in `pending_rx`.  When that check
fires at time 4, `NetworkCoding` reads `pending_rx[0]`, which is empty (so is
`pending_rx[1]`): `encoding` is invoked on a null partner and the call has no defined
result. -/
theorem SendCheck_fires_without_partner :
    ∃ s1, Receive sampleConfig
        ⟨sampleDevice 3, [samplePacket MsgType.FORWARDING 1 2], [], [], []⟩
        (some 0) 0 3 2 false = some s1
      ∧ Reachable sampleConfig
          ⟨sampleDevice 3, [samplePacket MsgType.FORWARDING 1 2], [], [], []⟩ s1
      ∧ s1.scheduled = [⟨3, Callback.SendCheck (some 0) (some FlagId.nc_flag_2)⟩]
      ∧ s1.dev.nc_flag_2 = true
      ∧ partnerSlot s1.dev 4 = none
      ∧ s1.dev.m_rxPacket = none ∧ s1.dev.m_rxPacket_1 = none
      ∧ encoding sampleConfig s1 (some 0) (partnerSlot s1.dev 4) = none
      ∧ NetworkCoding sampleConfig s1 4 (some 0) = none
      ∧ SendCheck sampleConfig s1 4 (some 0) (some FlagId.nc_flag_2) = none :=
  ⟨_, rfl, Reachable.next _ _ (Op.Receive (some 0) 0 3 2 false) Reachable.init rfl,
    rfl, rfl, rfl, rfl, rfl, rfl, rfl, rfl⟩

/-! ## Frames for other nodes -/

/-- C25: frames for other nodes are ignored.  For a packet not reported corrupt whose
destination differs from the own address (the broadcast address included), `Receive`
returns the state unchanged: no device member or packet is modified, nothing is scheduled
and nothing is handed to the channel. -/
theorem Receive_other_destination (cfg : Config) (s : State) (packet : PacketPtr)
    (protocol toAddr fromAddr : Nat) (isCorrupt : Bool)
    (hto : toAddr ≠ s.dev.m_address)
    (hnc : ¬ (s.dev.m_receiveErrorModel = true ∧ isCorrupt = true)) :
    Receive cfg s packet protocol toAddr fromAddr isCorrupt = some s := by
  simp only [Receive, hnc, if_false, hto]

/-- Witness for C25: node 3 hears a frame sent to the broadcast address
`ff:ff:ff:ff:ff:ff`. -/
theorem Receive_other_destination_witness :
    Receive sampleConfig
        ⟨sampleDevice 3, [samplePacket MsgType.FORWARDING 1 2], [], [], []⟩
        (some 0) 0 0xffffffffffff 2 false =
      some ⟨sampleDevice 3, [samplePacket MsgType.FORWARDING 1 2], [], [], []⟩ :=
  Receive_other_destination sampleConfig
    ⟨sampleDevice 3, [samplePacket MsgType.FORWARDING 1 2], [], [], []⟩
    (some 0) 0 0xffffffffffff 2 false (by decide) (by decide)

/-! ## Partner slot -/

/-- `encoding` reads only the packet heap and the node id of the state it is given. -/
theorem encoding_congr (cfg : Config) (s t : State) (p1 p2 : PacketPtr)
    (hh : t.heap = s.heap) (hs : t.dev.m_sid = s.dev.m_sid) :
    encoding cfg t p1 p2 =
      (encoding cfg s p1 p2).map (fun x => (x.1, { t with heap := x.2.heap })) := by
  unfold encoding
  rw [hh, hs]
  cases RemoveHeader s.heap p1 with
  | none => rfl
  | some r1 =>
    obtain ⟨temp1, heap1⟩ := r1
    dsimp only
    cases RemoveHeader heap1 p2 with
    | none => rfl
    | some r2 =>
      obtain ⟨temp2, heap2⟩ := r2
      dsimp only
      cases AddHeader (Create heap2 100).2 (Create heap2 100).1
          { cfg.defaultHeader with
            type := MsgType.NETWORK_CODING
            osid := temp1.osid
            psid := s.dev.m_sid
            r := 0
            e := 1
            osid2 := temp2.osid } with
      | none => rfl
      | some heap4 => rfl

/-- The value of a coding flag has no influence on `NetworkCoding`. -/
theorem NetworkCoding_setFlag (cfg : Config) (s : State) (now : Int) (packet : PacketPtr)
    (f : FlagId) (v : Bool) :
    NetworkCoding cfg (setFlag s f v) now packet =
      (NetworkCoding cfg s now packet).map (fun t => setFlag t f v) := by
  have hrx : (setFlag s f v).dev.m_rxPacket = s.dev.m_rxPacket := by cases f <;> rfl
  have hrx1 : (setFlag s f v).dev.m_rxPacket_1 = s.dev.m_rxPacket_1 := by cases f <;> rfl
  have hheap : (setFlag s f v).heap = s.heap := by cases f <;> rfl
  unfold NetworkCoding
  dsimp only
  rw [hrx, hrx1, encoding_congr cfg s (setFlag s f v) packet s.dev.m_rxPacket hheap
      (setFlag_dev_m_sid s f v),
    encoding_congr cfg s (setFlag s f v) packet s.dev.m_rxPacket_1 hheap
      (setFlag_dev_m_sid s f v)]
  split_ifs
  · cases hE : encoding cfg s packet s.dev.m_rxPacket with
    | none => rfl
    | some r =>
      obtain ⟨nc, s1⟩ := r
      have hd := (encoding_frame cfg s s1 packet s.dev.m_rxPacket nc hE)
      obtain ⟨d1, d2, d3, d4⟩ := hd
      cases s1
      simp only at d1 d2 d3 d4
      subst d1 d2 d3 d4
      cases f <;> rfl
  · cases hE : encoding cfg s packet s.dev.m_rxPacket_1 with
    | none => rfl
    | some r =>
      obtain ⟨nc, s1⟩ := r
      have hd := (encoding_frame cfg s s1 packet s.dev.m_rxPacket_1 nc hE)
      obtain ⟨d1, d2, d3, d4⟩ := hd
      cases s1
      simp only at d1 d2 d3 d4
      subst d1 d2 d3 d4
      cases f <;> rfl

/-- `SendCheck` on either flag runs the same `NetworkCoding` call and then clears the flag
it was given. -/
theorem SendCheck_eq_NetworkCoding (cfg : Config) (s : State) (now : Int) (packet : PacketPtr)
    (f : FlagId) :
    SendCheck cfg s now packet (some f) =
      (NetworkCoding cfg s now packet).map (fun t => setFlag t f false) := by
  unfold SendCheck
  cases hpk : PeekHeader s.heap packet with
  | some hd =>
    dsimp only
    simp only [reduceCtorEq, if_false]
    cases NetworkCoding cfg s now packet <;> rfl
  | none =>
    dsimp only
    have hrm : RemoveHeader s.heap packet = none := by
      unfold PeekHeader deref at hpk
      unfold RemoveHeader
      cases packet with
      | none => rfl
      | some a =>
        dsimp only at hpk ⊢
        cases hget : s.heap[a]? with
        | none => rfl
        | some pk =>
          rw [hget] at hpk
          dsimp only at hpk ⊢
          cases hh : pk.headers with
          | nil => rfl
          | cons x xs => rw [hh] at hpk; cases hpk
    have hnc : NetworkCoding cfg s now packet = none := by
      unfold NetworkCoding encoding
      dsimp only
      rw [hrm]
      split_ifs <;> rfl
    rw [hnc]
    rfl

/-- What a returning `NetworkCoding` call has done, slot by slot. -/
theorem NetworkCoding_of_some (cfg : Config) (s s1 : State) (now : Int)
    (packet : PacketPtr) (h : NetworkCoding cfg s now packet = some s1) :
    (now.tmod 13 ≤ 6 →
        ∃ nc s2, encoding cfg s packet s.dev.m_rxPacket = some (nc, s2)
          ∧ s1.heap = s2.heap
          ∧ s1.dev.m_rxPacket = none ∧ s1.dev.m_rxPacket_1 = s.dev.m_rxPacket_1)
      ∧ (¬ now.tmod 13 ≤ 6 →
        ∃ nc s2, encoding cfg s packet s.dev.m_rxPacket_1 = some (nc, s2)
          ∧ s1.heap = s2.heap
          ∧ s1.dev.m_rxPacket_1 = none ∧ s1.dev.m_rxPacket = s.dev.m_rxPacket)
      ∧ s1.dev.m_txPacket = s.dev.m_txPacket ∧ s1.dev.m_txPacket_1 = s.dev.m_txPacket_1
      ∧ (0 ≤ now → now.tmod 13 = now % 13)
      ∧ (∀ (f : FlagId) (v : Bool),
          NetworkCoding cfg (setFlag s f v) now packet = some (setFlag s1 f v))
      ∧ (∀ f : FlagId, SendCheck cfg s now packet (some f) = some (setFlag s1 f false)) := by
  have hdev := NetworkCoding_dev cfg s s1 now packet h
  have hflagfree : ∀ (f : FlagId) (v : Bool),
      NetworkCoding cfg (setFlag s f v) now packet = some (setFlag s1 f v) := by
    intro f v
    rw [NetworkCoding_setFlag, h]
    rfl
  have hcheck : ∀ f : FlagId, SendCheck cfg s now packet (some f) = some (setFlag s1 f false) := by
    intro f
    rw [SendCheck_eq_NetworkCoding, h]
    rfl
  have htx : s1.dev.m_txPacket = s.dev.m_txPacket ∧ s1.dev.m_txPacket_1 = s.dev.m_txPacket_1 := by
    rw [hdev]
    unfold clearPartner
    split_ifs <;> exact ⟨rfl, rfl⟩
  refine ⟨?_, ?_, htx.1, htx.2, fun hn => Int.tmod_eq_emod hn (by decide), hflagfree, hcheck⟩
  · intro hc
    have hc1 : now.tmod timeslot ≤ 6 := hc
    unfold NetworkCoding at h
    dsimp only at h
    rw [if_pos hc1] at h
    cases hE : encoding cfg s packet s.dev.m_rxPacket with
    | none => rw [hE] at h; cases h
    | some r =>
      obtain ⟨nc, s2⟩ := r
      rw [hE] at h
      injection h with h
      subst h
      have hf := (encoding_frame cfg s s2 packet s.dev.m_rxPacket nc hE).1
      refine ⟨nc, s2, rfl, rfl, rfl, ?_⟩
      show s2.dev.m_rxPacket_1 = s.dev.m_rxPacket_1
      rw [hf]
  · intro hc
    have hc1 : ¬ now.tmod timeslot ≤ 6 := hc
    unfold NetworkCoding at h
    dsimp only at h
    rw [if_neg hc1] at h
    cases hE : encoding cfg s packet s.dev.m_rxPacket_1 with
    | none => rw [hE] at h; cases h
    | some r =>
      obtain ⟨nc, s2⟩ := r
      rw [hE] at h
      injection h with h
      subst h
      have hf := (encoding_frame cfg s s2 packet s.dev.m_rxPacket_1 nc hE).1
      refine ⟨nc, s2, rfl, rfl, rfl, ?_⟩
      show s2.dev.m_rxPacket = s.dev.m_rxPacket
      rw [hf]

/-- C24: the coding partner slot is chosen by the clock alone.  At clock value `now`,
whenever `NetworkCoding` returns: if `now % 13 <= 6` (the `%` of C++, which is `now mod 13`
for `now >= 0`) the coded packet is the encoding of the current packet with `pending_rx[0]`,
`pending_rx[0]` is cleared and `pending_rx[1]` is unchanged; otherwise it is the encoding
with `pending_rx[1]`, `pending_rx[1]` is cleared and `pending_rx[0]` is unchanged.  Both
`pending_tx` slots are unchanged.  The values of the coding flags have no influence, and
`SendCheck` on either flag makes this same call.  The call does return when the slot chosen
by the clock holds a packet other than the current one and both carry a header. -/
theorem NetworkCoding_slot_by_clock (cfg : Config) (s : State) (now : Int)
    (packet : PacketPtr) :
    (∀ s1 : State, NetworkCoding cfg s now packet = some s1 →
      (now.tmod 13 ≤ 6 →
        ∃ nc s2, encoding cfg s packet s.dev.m_rxPacket = some (nc, s2)
          ∧ s1.heap = s2.heap
          ∧ s1.dev.m_rxPacket = none ∧ s1.dev.m_rxPacket_1 = s.dev.m_rxPacket_1)
      ∧ (¬ now.tmod 13 ≤ 6 →
        ∃ nc s2, encoding cfg s packet s.dev.m_rxPacket_1 = some (nc, s2)
          ∧ s1.heap = s2.heap
          ∧ s1.dev.m_rxPacket_1 = none ∧ s1.dev.m_rxPacket = s.dev.m_rxPacket)
      ∧ s1.dev.m_txPacket = s.dev.m_txPacket ∧ s1.dev.m_txPacket_1 = s.dev.m_txPacket_1
      ∧ (0 ≤ now → now.tmod 13 = now % 13)
      ∧ (∀ (f : FlagId) (v : Bool),
          NetworkCoding cfg (setFlag s f v) now packet = some (setFlag s1 f v))
      ∧ (∀ f : FlagId, SendCheck cfg s now packet (some f) = some (setFlag s1 f false)))
    ∧ (∀ (a b : Nat) (pk pkq : Packet) (hd hq : LwsnHeader) (tl tlq : List LwsnHeader),
        packet = some a → s.heap[a]? = some pk → pk.headers = hd :: tl →
        (if now.tmod 13 ≤ 6 then s.dev.m_rxPacket else s.dev.m_rxPacket_1) = some b →
        s.heap[b]? = some pkq → pkq.headers = hq :: tlq → a ≠ b →
        ∃ s1, NetworkCoding cfg s now packet = some s1) := by
  refine ⟨fun s1 h => NetworkCoding_of_some cfg s s1 now packet h, ?_⟩
  intro a b pk pkq hd hq tl tlq hpa hp hhp hslot hb hhq hne
  subst hpa
  exact ⟨_, NetworkCoding_eq cfg s now a b pk pkq hd hq tl tlq hp hhp hslot hb hhq hne⟩

/-- Witness for C24: node 4 at time 8 (8 % 13 > 6) with both `pending_rx` slots occupied,
slot 0 by a packet of origin 3 and slot 1 by a packet of origin 2, and both flags false:
the current packet of origin 6 is encoded with the packet of slot 1. -/
theorem NetworkCoding_slot_by_clock_witness :
    ∃ s1, NetworkCoding sampleConfig
        ⟨{ sampleDevice 4 with m_rxPacket := some 2, m_rxPacket_1 := some 1 },
          [samplePacket MsgType.FORWARDING 6 5, samplePacket MsgType.FORWARDING 2 3,
           samplePacket MsgType.FORWARDING 3 3], [], [], []⟩
        8 (some 0) = some s1
      ∧ s1.heap[3]? = some ⟨[codedHeader sampleConfig 4 6 2], 100, []⟩
      ∧ ¬ (Int.tmod 8 13 ≤ 6)
      ∧ s1.dev.m_rxPacket_1 = none ∧ s1.dev.m_rxPacket = some 2
      ∧ (∀ f : FlagId, SendCheck sampleConfig
          ⟨{ sampleDevice 4 with m_rxPacket := some 2, m_rxPacket_1 := some 1 },
            [samplePacket MsgType.FORWARDING 6 5, samplePacket MsgType.FORWARDING 2 3,
             samplePacket MsgType.FORWARDING 3 3], [], [], []⟩
          8 (some 0) (some f) = some (setFlag s1 f false)) :=
  ⟨_, rfl, rfl, by decide, rfl, rfl,
    ((NetworkCoding_slot_by_clock sampleConfig
      ⟨{ sampleDevice 4 with m_rxPacket := some 2, m_rxPacket_1 := some 1 },
        [samplePacket MsgType.FORWARDING 6 5, samplePacket MsgType.FORWARDING 2 3,
         samplePacket MsgType.FORWARDING 3 3], [], [], []⟩
      8 (some 0)).1 _ rfl).2.2.2.2.2.2⟩

end LinearNode
